import Mathlib

/-!
Shallow embedding of `src/IGLU/simple_renderer/ShaderUniforms.cpp` (namespace
`iglu::material`, class `ShaderUniforms`), which manages CPU staging storage and
GPU buffer binding for shader uniforms across the OpenGL, Metal and Vulkan
backends.  Machine `size_t` / `uintptr_t` arithmetic is modelled as `Nat`
reduced modulo `2 ^ 64` at every operation where the C++ computes in unsigned
64-bit integers.  Raw memory is modelled as a `List Nat` of byte values; GPU
resources and encoder calls are modelled as explicit command events.
-/

namespace IGLU

/-- Width of `size_t` / `uintptr_t` on the modelled 64-bit platform. -/
def U64 : Nat := 18446744073709551616

/-- Largest `size_t` value, `std::numeric_limits<size_t>::max()`. -/
def SIZE_MAX : Nat := U64 - 1

/-- Reduction modulo `2 ^ 64`, applied wherever the C++ source computes in
`size_t` or `uintptr_t`. -/
def w64 (n : Nat) : Nat := n % U64

/-- ShaderUniforms.cpp line 33: for suballocated uniform buffers, allocate at
most 64K. -/
def MAX_SUBALLOCATED_BUFFER_SIZE_BYTES : Nat := 65536

/-- The backend types distinguished by ShaderUniforms.cpp
(`igl::BackendType`). -/
inductive BackendType
  | OpenGL
  | Metal
  | Vulkan
deriving DecidableEq, Repr

/-- Shader stages relevant to `bindTargetForShaderStage`
(`igl::ShaderStage`). -/
inductive ShaderStage
  | Vertex
  | Fragment
  | Compute
deriving DecidableEq, Repr

/-- Modelled from the spec: the numeric values of `igl::BindTarget::kVertex`,
`kFragment` and `kAllGraphics` live in the igl core headers, which are not
under src/.  The spec only requires a vertex bit-target, a fragment bit-target
and an all-stages target; they are modelled as the distinct constants 1, 2
and 3. -/
def kVertex : Nat := 1

/-- Modelled from the spec: fragment bind target bit (see `kVertex`). -/
def kFragment : Nat := 2

/-- Modelled from the spec: all-graphics-stages bind target (see `kVertex`). -/
def kAllGraphics : Nat := 3

/-- ShaderUniforms.cpp lines 35-45: map a shader stage to its bind target;
any stage other than vertex or fragment trips an assertion and returns 0. -/
def bindTargetForShaderStage : ShaderStage → Nat
  | .Vertex => kVertex
  | .Fragment => kFragment
  | .Compute => 0

/-- The uniform element types used by the value-writer claims
(`igl::UniformType`). -/
inductive UniformType
  | Boolean
  | Int1
  | Float1
  | Float2
  | Float3
  | Float4
  | Mat2x2
  | Mat3x3
  | Mat4x4
deriving DecidableEq, Repr

/-- Modelled from the spec: `igl::sizeForUniformType` is declared in the igl
core (not under src/).  Per the spec it is the natural packed byte size of the
type, e.g. 36 for a 3x3 matrix and 12 for a 3-vector, 16 for a float4. -/
def sizeForUniformType : UniformType → Nat
  | .Boolean => 1
  | .Int1 => 4
  | .Float1 => 4
  | .Float2 => 8
  | .Float3 => 12
  | .Float4 => 16
  | .Mat2x2 => 16
  | .Mat3x3 => 36
  | .Mat4x4 => 64

/-- ShaderUniforms.cpp lines 164-175: backend-adjusted expected byte size for
a uniform type; Metal and Vulkan pad 3x3 matrices to 48 bytes and 3-vectors
to 16 bytes. -/
def getUniformExpectedSize (uniformType : UniformType) (backend : BackendType) : Nat :=
  let expectedSize := sizeForUniformType uniformType
  if backend = .Metal ∨ backend = .Vulkan then
    if uniformType = .Mat3x3 then 48
    else if uniformType = .Float3 then 16
    else expectedSize
  else expectedSize

/-- A created GPU buffer object (`igl::IBuffer`): its identity and the length
it was created with (`igl::BufferDesc::length`). -/
structure GpuBuffer where
  id : Nat
  length : Nat
deriving DecidableEq, Repr

/-- One reflected buffer member (`igl::BufferArgDesc::BufferMemberDesc`). -/
structure BufferMemberDesc where
  name : String
  type : UniformType
  offset : Nat
  arrayLength : Nat
deriving DecidableEq, Repr

/-- One reflected uniform buffer (`igl::BufferArgDesc`). -/
structure BufferArgDesc where
  name : String
  shaderStage : ShaderStage
  bufferDataSize : Nat
  isUniformBlock : Bool
  bufferIndex : Nat
  members : List BufferMemberDesc
deriving DecidableEq, Repr

/-- A `BufferAllocation`: the malloc-ed CPU staging bytes, its recorded size
and the optional associated GPU buffer. -/
structure BufferAllocation where
  ptrBytes : List Nat
  size : Nat
  iglBuffer : Option GpuBuffer
deriving DecidableEq, Repr

/-- A `ShaderUniforms::UniformDesc`: a reflected member and a weak reference
to its owning `BufferDesc`. -/
structure UniformDesc where
  iglMemberDesc : BufferMemberDesc
  buffer : Option Nat
deriving DecidableEq, Repr

/-- A `ShaderUniforms::BufferDesc`: one reflected buffer, its allocation, its
member uniforms and the suballocation bookkeeping.  `currentAllocation = -1`
means no suballocation index is selected.  The `UniformDesc` weak reference
is modelled as an optional index into the registry's buffer list (`none`
models an expired `weak_ptr`). -/
structure BufferDesc where
  iglBufferDesc : BufferArgDesc
  allocation : BufferAllocation
  uniforms : List UniformDesc := []
  isSuballocated : Bool := false
  suballocationsSize : Nat := 0
  currentAllocation : Int := -1
  suballocations : List Int := []
deriving DecidableEq, Repr

/-- The mutable registry state of a `ShaderUniforms` instance: its backend,
the buffer groups in construction order, the one-to-many uniform name index
(insertion order preserved) and the per-(name, stage) buffer index. -/
structure ShaderUniformsState where
  backend : BackendType
  buffers : List BufferDesc
  uniformsByName : List (String × UniformDesc)
  buffersByName : List ((String × ShaderStage) × Nat)
deriving DecidableEq, Repr

/-- Device capability inputs queried by the `ShaderUniforms` constructor. -/
structure DeviceCaps where
  backend : BackendType
  hasBindBytesFeature : Bool
  bindBytesLimitKnown : Bool
  bindBytesLimit : Nat
  uniformBufferLimit : Nat
deriving DecidableEq, Repr

/-- Bytes returned by `malloc`; their contents are indeterminate in C and
modelled as zeros (no claim depends on the initial contents). -/
def mallocBytes (n : Nat) : List Nat := List.replicate n 0

/-- ShaderUniforms.cpp lines 64-134, one loop iteration of the constructor:
given the device capabilities, the running GPU-buffer id and one reflected
buffer, produce the `BufferDesc` registered for it, or `none` when the entry
is skipped (the Metal `vertexBuffer.` auto-managed names). -/
def processBufferArg (caps : DeviceCaps) (bufId : Nat) (iglDesc : BufferArgDesc) :
    Option BufferDesc :=
  let isSuballocated := caps.backend = .Vulkan
  let length := iglDesc.bufferDataSize
  let bufferAllocationLength :=
    min (if isSuballocated then MAX_SUBALLOCATED_BUFFER_SIZE_BYTES else length)
        (if caps.uniformBufferLimit ≠ 0 then caps.uniformBufferLimit else SIZE_MAX)
  if caps.backend = .Metal ∧ iglDesc.name.take 13 = "vertexBuffer." then
    none
  else
    let hasBindBytes := caps.hasBindBytesFeature ∧ caps.bindBytesLimitKnown
    let createBuffer :=
      if caps.backend = .OpenGL then iglDesc.isUniformBlock = true
      else if caps.backend = .Vulkan then True
      else ¬hasBindBytes ∨ length > caps.bindBytesLimit
    let buffer : Option GpuBuffer :=
      if createBuffer then some ⟨bufId, bufferAllocationLength⟩ else none
    some
      { iglBufferDesc := iglDesc
        allocation :=
          { ptrBytes := mallocBytes bufferAllocationLength
            size := bufferAllocationLength
            iglBuffer := buffer }
        isSuballocated := isSuballocated
        suballocationsSize := if isSuballocated then length else 0
        currentAllocation := -1
        suballocations := [] }

/-- Registers one created `BufferDesc` into the registry state: every member
is appended to the uniform name multimap and the buffer is inserted under its
(name, stage) key (prepending so that a later insertion wins lookups, like
`operator[]` overwrite on the C++ map). -/
def registerBufferDesc (st : ShaderUniformsState) (bufferDesc : BufferDesc) :
    ShaderUniformsState :=
  let bi := st.buffers.length
  let newUniforms := bufferDesc.iglBufferDesc.members.map
    (fun m => (m.name, UniformDesc.mk m (some bi)))
  let bufferDesc := { bufferDesc with uniforms := newUniforms.map Prod.snd }
  { st with
    buffers := st.buffers ++ [bufferDesc]
    uniformsByName := st.uniformsByName ++ newUniforms
    buffersByName :=
      ((bufferDesc.iglBufferDesc.name, bufferDesc.iglBufferDesc.shaderStage), bi)
        :: st.buffersByName }

/-- ShaderUniforms.cpp lines 51-143: the constructor, folded over the
reflected uniform buffers in order. -/
def shaderUniformsInit (caps : DeviceCaps) (reflectionBuffers : List BufferArgDesc) :
    ShaderUniformsState :=
  reflectionBuffers.foldl
    (fun st iglDesc =>
      match processBufferArg caps st.buffers.length iglDesc with
      | none => st
      | some bufferDesc => registerBufferDesc st bufferDesc)
    { backend := caps.backend, buffers := [], uniformsByName := [], buffersByName := [] }

/-- Writes the bytes of `src` into `mem` starting at `offset`; bytes falling
outside `mem` are dropped (the model never materialises out-of-bounds heap
writes, it reports them through copy events instead). -/
def memWrite : List Nat → Nat → List Nat → List Nat
  | [], _, _ => []
  | m, _, [] => m
  | _ :: m, 0, s :: src => s :: memWrite m 0 src
  | b :: m, o + 1, src => b :: memWrite m o src

/-- A copy performed into a staging allocation: the buffer-group index in the
registry, the destination byte offset and the number of bytes copied. -/
structure CopyEvent where
  bufferIdx : Nat
  offset : Nat
  numBytes : Nat
deriving DecidableEq, Repr

/-- ShaderUniforms.cpp lines 188-230, the body of the `setUniformBytes` loop
for one matching `UniformDesc`: size check (skipped on Vulkan), range check,
weak-reference resolution, destination offset computation and the checked
copy.  `try_checked_memcpy` (igl/IGLSafeC.h, not under src/) is modelled from
the spec: the copy fails, writing nothing, exactly when the requested byte
count exceeds the max destination size passed to it; the max destination size
is the `size_t` difference `allocation->size - offset`, which wraps modulo
`2 ^ 64`.  Returns the updated buffer list and the copies performed. -/
def setUniformBytesSlot (backend : BackendType) (buffers : List BufferDesc)
    (data : List Nat) (elementSize count arrayIndex : Nat) (uniformDesc : UniformDesc) :
    List BufferDesc × List CopyEvent :=
  if backend ≠ .Vulkan ∧
      elementSize ≠ getUniformExpectedSize uniformDesc.iglMemberDesc.type backend then
    (buffers, [])
  else if w64 (arrayIndex + count) > uniformDesc.iglMemberDesc.arrayLength then
    (buffers, [])
  else
    match uniformDesc.buffer with
    | none => (buffers, [])
    | some bi =>
      match buffers.get? bi with
      | none => (buffers, [])
      | some strongBuffer =>
        let subAllocatedOffset :=
          if strongBuffer.isSuballocated ∧ strongBuffer.currentAllocation ≥ 0 then
            w64 (strongBuffer.currentAllocation.toNat * strongBuffer.suballocationsSize)
          else 0
        let offset :=
          w64 (uniformDesc.iglMemberDesc.offset + w64 (elementSize * arrayIndex) +
            subAllocatedOffset)
        let maxDstSize := w64 (strongBuffer.allocation.size + U64 - offset)
        let numBytes := w64 (elementSize * count)
        if numBytes ≤ maxDstSize then
          let alloc := strongBuffer.allocation
          let newBuffer :=
            { strongBuffer with
              allocation :=
                { alloc with ptrBytes := memWrite alloc.ptrBytes offset (data.take numBytes) } }
          (buffers.set bi newBuffer, [⟨bi, offset, numBytes⟩])
        else
          (buffers, [])

/-- Spec-side variant of `setUniformBytesSlot` written from the spec words
"Size check (skipped only for backend A)": the same per-slot write with the
size check removed.  It is compared against the source-derived
`setUniformBytesSlot` to state that on Vulkan the size check is skipped
entirely. -/
def setUniformBytesSlotSpecNoSizeCheck (buffers : List BufferDesc)
    (data : List Nat) (elementSize count arrayIndex : Nat) (uniformDesc : UniformDesc) :
    List BufferDesc × List CopyEvent :=
  if w64 (arrayIndex + count) > uniformDesc.iglMemberDesc.arrayLength then
    (buffers, [])
  else
    match uniformDesc.buffer with
    | none => (buffers, [])
    | some bi =>
      match buffers.get? bi with
      | none => (buffers, [])
      | some strongBuffer =>
        let subAllocatedOffset :=
          if strongBuffer.isSuballocated ∧ strongBuffer.currentAllocation ≥ 0 then
            w64 (strongBuffer.currentAllocation.toNat * strongBuffer.suballocationsSize)
          else 0
        let offset :=
          w64 (uniformDesc.iglMemberDesc.offset + w64 (elementSize * arrayIndex) +
            subAllocatedOffset)
        let maxDstSize := w64 (strongBuffer.allocation.size + U64 - offset)
        let numBytes := w64 (elementSize * count)
        if numBytes ≤ maxDstSize then
          let alloc := strongBuffer.allocation
          let newBuffer :=
            { strongBuffer with
              allocation :=
                { alloc with ptrBytes := memWrite alloc.ptrBytes offset (data.take numBytes) } }
          (buffers.set bi newBuffer, [⟨bi, offset, numBytes⟩])
        else
          (buffers, [])

/-- The `setUniformBytes` loop over a list of matching uniform descriptors,
threading the buffer list and accumulating copy events. -/
def setUniformBytesList (backend : BackendType) (data : List Nat)
    (elementSize count arrayIndex : Nat) :
    List BufferDesc × List CopyEvent → List UniformDesc → List BufferDesc × List CopyEvent
  | acc, [] => acc
  | acc, u :: us =>
    let step := setUniformBytesSlot backend acc.1 data elementSize count arrayIndex u
    setUniformBytesList backend data elementSize count arrayIndex
      (step.1, acc.2 ++ step.2) us

/-- ShaderUniforms.cpp lines 178-231: `setUniformBytes`.  Resolves every
uniform matching `name` in insertion order and processes each with
`setUniformBytesSlot`; an unknown name is a logged no-op. -/
def setUniformBytes (st : ShaderUniformsState) (name : String) (data : List Nat)
    (elementSize count arrayIndex : Nat) : ShaderUniformsState × List CopyEvent :=
  let matching := (st.uniformsByName.filter (fun p => p.1 = name)).map Prod.snd
  if matching.isEmpty then
    (st, [])
  else
    let result := setUniformBytesList st.backend data elementSize count arrayIndex
      (st.buffers, []) matching
    ({ st with buffers := result.1 }, result.2)

/-- Result codes of `igl::Result` used by `setSuballocationIndex`. -/
inductive ResultCode
  | Ok
  | Unsupported
  | ArgumentOutOfRange
  | RuntimeError
deriving DecidableEq, Repr

/-- An `igl::Result`: a code plus a human-readable message. -/
structure IglResult where
  code : ResultCode
  message : String
deriving DecidableEq, Repr

/-- ShaderUniforms.cpp lines 591-620, the `setSuballocationIndex` loop over
the uniforms matching the name: skips expired or non-suballocated groups,
switches `currentAllocation` when `index` is already registered, otherwise
checks capacity (by the number of registered indices, in `size_t` arithmetic)
and either registers the index or returns early with an out-of-range result,
keeping the mutations already made by earlier iterations. -/
def setSuballocationIndexLoop (index : Int) :
    List BufferDesc × Bool → List UniformDesc → List BufferDesc × Bool × Option IglResult
  | (buffers, setIndexSuccess), [] => (buffers, setIndexSuccess, none)
  | (buffers, setIndexSuccess), u :: us =>
    match u.buffer with
    | none => setSuballocationIndexLoop index (buffers, setIndexSuccess) us
    | some bi =>
      match buffers.get? bi with
      | none => setSuballocationIndexLoop index (buffers, setIndexSuccess) us
      | some strongBuffer =>
        if ¬strongBuffer.isSuballocated then
          setSuballocationIndexLoop index (buffers, setIndexSuccess) us
        else if index ∈ strongBuffer.suballocations then
          setSuballocationIndexLoop index
            (buffers.set bi { strongBuffer with currentAllocation := index }, true) us
        else
          let currentSize :=
            w64 (strongBuffer.suballocations.length * strongBuffer.suballocationsSize)
          if w64 (currentSize + strongBuffer.suballocationsSize) >
              strongBuffer.allocation.size then
            (buffers, setIndexSuccess,
              some ⟨.ArgumentOutOfRange,
                "Cannot add new suballocation, exceeding buffer size of " ++
                  toString strongBuffer.allocation.size⟩)
          else
            setSuballocationIndexLoop index
              (buffers.set bi
                { strongBuffer with
                  currentAllocation := index
                  suballocations := strongBuffer.suballocations ++ [index] }, true) us

/-- ShaderUniforms.cpp lines 571-628: `setSuballocationIndex`.  Unsupported
off Vulkan; negative indices are out of range; an unknown name is a runtime
error; otherwise the loop runs and the call succeeds exactly when at least
one matching group was updated. -/
def setSuballocationIndex (st : ShaderUniformsState) (name : String) (index : Int) :
    ShaderUniformsState × IglResult :=
  if st.backend ≠ .Vulkan then
    (st, ⟨.Unsupported, "Suballocation is only available for Vulkan for now"⟩)
  else if index < 0 then
    (st, ⟨.ArgumentOutOfRange, "Invalid argument, index cannot be < 0"⟩)
  else
    let matching := (st.uniformsByName.filter (fun p => p.1 = name)).map Prod.snd
    if matching.isEmpty then
      (st, ⟨.RuntimeError, "Could not find uniform " ++ name⟩)
    else
      match setSuballocationIndexLoop index (st.buffers, false) matching with
      | (buffers, _, some err) => ({ st with buffers := buffers }, err)
      | (buffers, setIndexSuccess, none) =>
        if setIndexSuccess then
          ({ st with buffers := buffers }, ⟨.Ok, ""⟩)
        else
          ({ st with buffers := buffers },
            ⟨.RuntimeError, "Could not update suballocation index for " ++ name⟩)

/-- One call issued to a GPU buffer or the command encoder while publishing a
buffer group: uploads carry the uploaded bytes, range size and range offset;
binds carry index, bind target and offset; `nullDeref` marks a dereference of
a missing GPU buffer. -/
inductive EncoderCmd
  | uploadBuffer (buf : GpuBuffer) (bytes : List Nat) (size : Nat) (offset : Nat)
  | bindBuffer (index : Nat) (target : Nat) (buf : GpuBuffer) (offset : Nat)
  | bindBytes (index : Nat) (target : Nat) (bytes : List Nat) (size : Nat)
  | bindUniform (location : Int) (type : UniformType) (offset : Nat)
      (numElements : Nat) (elementStride : Nat) (bytes : List Nat)
  | nullDeref
deriving DecidableEq, Repr

/-- ShaderUniforms.cpp lines 442-464: `bindUniformOpenGL`.  The uniform
location is resolved by `pipelineState.getIndexByName` with the name and,
verbatim from the source, the literal stage `igl::ShaderStage::Fragment`; a
negative location is a logged skip; the weak buffer reference is resolved and
the raw staged bytes are bound. -/
def bindUniformOpenGL (buffers : List BufferDesc)
    (getIndexByName : String → ShaderStage → Int)
    (uniformName : String) (uniformDesc : UniformDesc) : List EncoderCmd :=
  let location := getIndexByName uniformName ShaderStage.Fragment
  if location ≥ 0 then
    match uniformDesc.buffer with
    | none => []
    | some bi =>
      match buffers.get? bi with
      | none => []
      | some strongBuffer =>
        [.bindUniform location uniformDesc.iglMemberDesc.type
          uniformDesc.iglMemberDesc.offset uniformDesc.iglMemberDesc.arrayLength
          (sizeForUniformType uniformDesc.iglMemberDesc.type)
          strongBuffer.allocation.ptrBytes]
  else
    []

/-- ShaderUniforms.cpp lines 467-525: `bindBuffer` for one buffer group.  On
OpenGL, true blocks upload the whole allocation and bind at the pipeline's
uniform-block binding point, loose uniforms go through `bindUniformOpenGL`.
On the other backends, a present GPU buffer is uploaded over the full
allocation — or over the selected suballocation slot `index * unitSize` —
and bound at the reflected buffer index with the same offset, with an
all-graphics target on Vulkan; an absent GPU buffer binds the staged bytes
directly with the declared data size. -/
def bindBufferDesc (backend : BackendType) (buffers : List BufferDesc)
    (getUniformBlockBindingPoint : String → Nat)
    (getIndexByName : String → ShaderStage → Int)
    (buffer : BufferDesc) : List EncoderCmd :=
  if backend = .OpenGL then
    if buffer.iglBufferDesc.isUniformBlock then
      match buffer.allocation.iglBuffer with
      | some g =>
        [.uploadBuffer g buffer.allocation.ptrBytes buffer.allocation.size 0,
         .bindBuffer (getUniformBlockBindingPoint buffer.iglBufferDesc.name)
           (bindTargetForShaderStage buffer.iglBufferDesc.shaderStage) g 0]
      | none => [.nullDeref]
    else
      match buffer.uniforms.head? with
      | some uniformDesc =>
        bindUniformOpenGL buffers getIndexByName buffer.iglBufferDesc.name uniformDesc
      | none => [.nullDeref]
  else
    match buffer.allocation.iglBuffer with
    | some g =>
      let selected := buffer.isSuballocated ∧ buffer.currentAllocation ≥ 0
      let subAllocatedOffset :=
        if selected then w64 (buffer.currentAllocation.toNat * buffer.suballocationsSize)
        else 0
      let uploadSize :=
        if selected then buffer.suballocationsSize else buffer.allocation.size
      let bindTarget :=
        if backend = .Vulkan then kAllGraphics
        else bindTargetForShaderStage buffer.iglBufferDesc.shaderStage
      [.uploadBuffer g ((buffer.allocation.ptrBytes.drop subAllocatedOffset).take uploadSize)
         uploadSize subAllocatedOffset,
       .bindBuffer buffer.iglBufferDesc.bufferIndex bindTarget g subAllocatedOffset]
    | none =>
      [.bindBytes buffer.iglBufferDesc.bufferIndex
        (bindTargetForShaderStage buffer.iglBufferDesc.shaderStage)
        buffer.allocation.ptrBytes buffer.iglBufferDesc.bufferDataSize]

/-- ShaderUniforms.cpp lines 544-549 (buffer half of `bind`): publish every
buffer group in construction order.  Texture binding is outside the claims
modelled here. -/
def bindAll (st : ShaderUniformsState) (getUniformBlockBindingPoint : String → Nat)
    (getIndexByName : String → ShaderStage → Int) : List EncoderCmd :=
  (st.buffers.map
    (bindBufferDesc st.backend st.buffers getUniformBlockBindingPoint getIndexByName)).flatten

/-- Outcome of a `setBytes` call. -/
inductive SetBytesOutcome
  | invalidName
  | nullDeref
  | uploaded (buf : GpuBuffer) (data : List Nat) (size : Nat) (offset : Nat)
deriving DecidableEq, Repr

/-- ShaderUniforms.cpp lines 401-413: `setBytes`.  Looks the buffer up by
(name, stage); an unknown name is a logged no-op; otherwise the source calls
`allocation->iglBuffer->upload(data, BufferRange(size, 0))` with no null
check, so an entry whose allocation has no GPU buffer dereferences a null
handle. -/
def setBytes (st : ShaderUniformsState) (bufferName : String) (stage : ShaderStage)
    (data : List Nat) (size : Nat) : SetBytesOutcome :=
  match st.buffersByName.find? (fun p => p.1 = (bufferName, stage)) with
  | none => .invalidName
  | some p =>
    match st.buffers.get? p.2 with
    | none => .nullDeref
    | some b =>
      match b.allocation.iglBuffer with
      | none => .nullDeref
      | some g => .uploaded g data size 0

/-! Helper lemmas about the byte-store `memWrite`. -/

theorem memWrite_nil_src (m : List Nat) (o : Nat) : memWrite m o [] = m := by
  cases m with
  | nil => rfl
  | cons b m => cases o <;> rfl

theorem memWrite_zero_full (src : List Nat) :
    ∀ mem : List Nat, src.length ≤ mem.length →
      memWrite mem 0 src = src ++ mem.drop src.length := by
  induction src with
  | nil => intro mem _; simp [memWrite_nil_src]
  | cons s src ih =>
    intro mem h
    cases mem with
    | nil => simp at h
    | cons b m =>
      simp only [List.length_cons, Nat.succ_le_succ_iff] at h
      simpa [memWrite] using ih m h

theorem memWrite_append (xs : List Nat) :
    ∀ (ys src : List Nat) (o : Nat),
      memWrite (xs ++ ys) (xs.length + o) src = xs ++ memWrite ys o src := by
  induction xs with
  | nil => intro ys src o; simp
  | cons x xs ih =>
    intro ys src o
    cases src with
    | nil => simp [memWrite_nil_src]
    | cons s src =>
      have hlen : (x :: xs).length + o = (xs.length + o) + 1 := by
        simp [List.length_cons]; omega
      rw [hlen]
      simpa [memWrite] using ih ys (s :: src) o

/-- C1: the claim says every copy performed by `setUniformBytes` lands inside
the backing allocation, with overflowing copies rejected before any byte is
written, in every reachable state including sparse suballocation indices.
The code violates this: on Vulkan with a 64-byte uniform-buffer limit and a
16-byte buffer (so unit size 16, allocation size 64), `setSuballocationIndex`
accepts index 5 because its capacity check counts registrations rather than
bounding the index, and the subsequent 16-byte write computes destination
offset 5 * 16 = 80; the `size_t` bound `allocation->size - offset` wraps
modulo `2 ^ 64`, the checked copy passes, and the copy is performed at byte
range [80, 96) of a 64-byte allocation. -/
theorem C1_sparse_suballocation_write_escapes_allocation :
    (setSuballocationIndex
        (shaderUniformsInit ⟨.Vulkan, true, true, 4096, 64⟩
          [⟨"blk", .Vertex, 16, true, 0, [⟨"u", .Float4, 0, 1⟩]⟩]) "u" 5).2.code =
      .Ok ∧
    (setUniformBytes
        (setSuballocationIndex
          (shaderUniformsInit ⟨.Vulkan, true, true, 4096, 64⟩
            [⟨"blk", .Vertex, 16, true, 0, [⟨"u", .Float4, 0, 1⟩]⟩]) "u" 5).1
        "u" (List.replicate 16 7) 16 1 0).2 = [⟨0, 80, 16⟩] ∧
    ((setSuballocationIndex
        (shaderUniformsInit ⟨.Vulkan, true, true, 4096, 64⟩
          [⟨"blk", .Vertex, 16, true, 0, [⟨"u", .Float4, 0, 1⟩]⟩]) "u" 5).1.buffers.map
      (fun b => b.allocation.size)) = [64] ∧
    64 < 80 + 16 := by
  decide

/-- C3 counterexample: the claim says that when a new suballocation index
would exceed remaining capacity, `setSuballocationIndex` returns an
out-of-range error and does not mutate registered state.  With two
suballocated groups matching the same uniform name (unit sizes 16 and 40,
both with allocation size 64 and index 0 already registered), selecting
index 1 registers it in the first group and only then hits the capacity
failure on the second: the call returns the out-of-range error, yet the
first group's registered set has grown from [0] to [0, 1]. -/
theorem C3_capacity_error_still_mutates_earlier_group :
    (setSuballocationIndex
        ((setSuballocationIndex
          (shaderUniformsInit ⟨.Vulkan, true, true, 4096, 64⟩
            [⟨"blkA", .Vertex, 16, true, 0, [⟨"u", .Float4, 0, 1⟩]⟩,
             ⟨"blkB", .Fragment, 40, true, 1, [⟨"u", .Float4, 0, 1⟩]⟩]) "u" 0).1)
        "u" 1).2.code = .ArgumentOutOfRange ∧
    (((setSuballocationIndex
        (shaderUniformsInit ⟨.Vulkan, true, true, 4096, 64⟩
          [⟨"blkA", .Vertex, 16, true, 0, [⟨"u", .Float4, 0, 1⟩]⟩,
           ⟨"blkB", .Fragment, 40, true, 1, [⟨"u", .Float4, 0, 1⟩]⟩]) "u" 0).1.buffers.map
      (fun b => b.suballocations)) = [[0], [0]]) ∧
    (((setSuballocationIndex
        ((setSuballocationIndex
          (shaderUniformsInit ⟨.Vulkan, true, true, 4096, 64⟩
            [⟨"blkA", .Vertex, 16, true, 0, [⟨"u", .Float4, 0, 1⟩]⟩,
             ⟨"blkB", .Fragment, 40, true, 1, [⟨"u", .Float4, 0, 1⟩]⟩]) "u" 0).1)
        "u" 1).1.buffers.map (fun b => b.suballocations)) = [[0, 1], [0]]) := by
  decide

/-- Helper: setting a list entry to the value it already holds is the
identity. -/
theorem list_set_self {α : Type _} (l : List α) (j : Nat) (a : α)
    (h : l[j]? = some a) : l.set j a = l := by
  have hlen : j < l.length := by rw [List.getElem?_eq_some] at h; exact h.1
  apply List.ext_getElem?
  intro k
  by_cases hk : j = k
  · subst hk
    rw [List.getElem?_set_eq hlen, h]
  · rw [List.getElem?_set_ne hk]

/-- Helper: rewriting `currentAllocation` to the value it already holds is
the identity on a buffer group. -/
theorem bufferDesc_set_current_self (b : BufferDesc) (i : Int)
    (h : b.currentAllocation = i) : { b with currentAllocation := i } = b := by
  obtain ⟨bd, ba, bu, bs, bss, bca, bsubs⟩ := b
  simp only at h
  simp [h]

/-- Helper: the suballocation-selection loop never changes the number of
buffer groups. -/
theorem setSuballocationIndexLoop_length (i : Int) :
    ∀ (us : List UniformDesc) (bufs : List BufferDesc) (s : Bool),
      (setSuballocationIndexLoop i (bufs, s) us).1.length = bufs.length := by
  intro us
  induction us with
  | nil => intro bufs s; rfl
  | cons u us ih =>
    intro bufs s
    cases hu : u.buffer with
    | none => simp [setSuballocationIndexLoop, hu, ih]
    | some bi =>
      cases hb : bufs[bi]? with
      | none => simp [setSuballocationIndexLoop, hu, hb, ih]
      | some b =>
        by_cases hs : b.isSuballocated = true
        · by_cases hm : i ∈ b.suballocations
          · simp [setSuballocationIndexLoop, hu, hb, hs, hm, ih]
          · by_cases hc : w64 (w64 (b.suballocations.length * b.suballocationsSize) +
                b.suballocationsSize) > b.allocation.size
            · simp [setSuballocationIndexLoop, hu, hb, hs, hm, hc]
            · simp [setSuballocationIndexLoop, hu, hb, hs, hm, hc, ih]
        · simp [setSuballocationIndexLoop, hu, hb, hs, ih]

/-- Helper: the selection loop preserves every group's suballocated flag,
and any group it rewrites ends with `currentAllocation = i` and `i`
registered. -/
theorem setSuballocationIndexLoop_preserves (i : Int) :
    ∀ (us : List UniformDesc) (bufs : List BufferDesc) (s : Bool) (j : Nat)
      (x : BufferDesc), bufs[j]? = some x →
      ∃ x', (setSuballocationIndexLoop i (bufs, s) us).1[j]? = some x' ∧
        x'.isSuballocated = x.isSuballocated ∧
        (x' = x ∨ (x'.currentAllocation = i ∧ i ∈ x'.suballocations)) := by
  intro us
  induction us with
  | nil => intro bufs s j x hx; exact ⟨x, hx, rfl, Or.inl rfl⟩
  | cons u us ih =>
    intro bufs s j x hx
    cases hu : u.buffer with
    | none => simpa [setSuballocationIndexLoop, hu] using ih bufs s j x hx
    | some bi =>
      cases hb : bufs[bi]? with
      | none => simpa [setSuballocationIndexLoop, hu, hb] using ih bufs s j x hx
      | some b =>
        by_cases hs : b.isSuballocated = true
        · by_cases hm : i ∈ b.suballocations
          · by_cases hj : bi = j
            · subst hj
              rw [hx] at hb
              obtain rfl := Option.some.inj hb
              have hlen : bi < bufs.length := by
                rw [List.getElem?_eq_some] at hx; exact hx.1
              have hset : (bufs.set bi { x with currentAllocation := i })[bi]? =
                  some { x with currentAllocation := i } := List.getElem?_set_eq hlen
              obtain ⟨x', h1, h2, h3⟩ :=
                ih (bufs.set bi { x with currentAllocation := i }) true bi _ hset
              refine ⟨x', ?_, by simpa using h2, ?_⟩
              · simpa [setSuballocationIndexLoop, hu, hx, hs, hm] using h1
              · rcases h3 with h | h
                · exact Or.inr (by rw [h]; exact ⟨rfl, by simpa using hm⟩)
                · exact Or.inr h
            · have hset : (bufs.set bi { b with currentAllocation := i })[j]? =
                  some x := by rw [List.getElem?_set_ne hj]; exact hx
              obtain ⟨x', h1, h2, h3⟩ :=
                ih (bufs.set bi { b with currentAllocation := i }) true j x hset
              exact ⟨x', by simpa [setSuballocationIndexLoop, hu, hb, hs, hm] using h1,
                h2, h3⟩
          · by_cases hc : w64 (w64 (b.suballocations.length * b.suballocationsSize) +
                b.suballocationsSize) > b.allocation.size
            · exact ⟨x, by simpa [setSuballocationIndexLoop, hu, hb, hs, hm, hc] using hx,
                rfl, Or.inl rfl⟩
            · by_cases hj : bi = j
              · subst hj
                rw [hx] at hb
                obtain rfl := Option.some.inj hb
                have hlen : bi < bufs.length := by
                  rw [List.getElem?_eq_some] at hx; exact hx.1
                have hset : (bufs.set bi { x with currentAllocation := i, suballocations := x.suballocations ++ [i] })[bi]? =
                    some { x with currentAllocation := i, suballocations := x.suballocations ++ [i] } :=
                  List.getElem?_set_eq hlen
                obtain ⟨x', h1, h2, h3⟩ := ih (bufs.set bi { x with currentAllocation := i, suballocations := x.suballocations ++ [i] }) true bi _ hset
                refine ⟨x', ?_, by simpa using h2, ?_⟩
                · simpa [setSuballocationIndexLoop, hu, hx, hs, hm, hc] using h1
                · rcases h3 with h | h
                  · exact Or.inr (by rw [h]; exact ⟨rfl, by simp⟩)
                  · exact Or.inr h
              · have hset : (bufs.set bi { b with currentAllocation := i, suballocations := b.suballocations ++ [i] })[j]? = some x := by
                  rw [List.getElem?_set_ne hj]; exact hx
                obtain ⟨x', h1, h2, h3⟩ := ih (bufs.set bi { b with currentAllocation := i, suballocations := b.suballocations ++ [i] }) true j x hset
                exact ⟨x',
                  by simpa [setSuballocationIndexLoop, hu, hb, hs, hm, hc] using h1,
                  h2, h3⟩
        · simpa [setSuballocationIndexLoop, hu, hb, hs] using ih bufs s j x hx

/-- Helper: once some matching group has been updated, the selection loop
reports success whatever comes after. -/
theorem setSuballocationIndexLoop_success_mono (i : Int) :
    ∀ (us : List UniformDesc) (bufs : List BufferDesc),
      (setSuballocationIndexLoop i (bufs, true) us).2.1 = true := by
  intro us
  induction us with
  | nil => intro bufs; rfl
  | cons u us ih =>
    intro bufs
    cases hu : u.buffer with
    | none => simp [setSuballocationIndexLoop, hu, ih]
    | some bi =>
      cases hb : bufs[bi]? with
      | none => simp [setSuballocationIndexLoop, hu, hb, ih]
      | some b =>
        by_cases hs : b.isSuballocated = true
        · by_cases hm : i ∈ b.suballocations
          · simp [setSuballocationIndexLoop, hu, hb, hs, hm, ih]
          · by_cases hc : w64 (w64 (b.suballocations.length * b.suballocationsSize) +
                b.suballocationsSize) > b.allocation.size
            · simp [setSuballocationIndexLoop, hu, hb, hs, hm, hc]
            · simp [setSuballocationIndexLoop, hu, hb, hs, hm, hc, ih]
        · simp [setSuballocationIndexLoop, hu, hb, hs, ih]

/-- Helper: running the selection loop a second time from its own output
buffers changes nothing — it returns the same buffers, flag and error. -/
theorem setSuballocationIndexLoop_idem (i : Int) :
    ∀ (us : List UniformDesc) (bufs : List BufferDesc) (s : Bool),
      setSuballocationIndexLoop i ((setSuballocationIndexLoop i (bufs, s) us).1, s) us =
        setSuballocationIndexLoop i (bufs, s) us := by
  intro us
  induction us with
  | nil => intro bufs s; rfl
  | cons u us ih =>
    intro bufs s
    cases hu : u.buffer with
    | none =>
      have hstep : ∀ (bufs2 : List BufferDesc) (s2 : Bool),
          setSuballocationIndexLoop i (bufs2, s2) (u :: us) =
            setSuballocationIndexLoop i (bufs2, s2) us := by
        intro bufs2 s2; simp [setSuballocationIndexLoop, hu]
      simp only [hstep]
      exact ih bufs s
    | some bi =>
      cases hb : bufs[bi]? with
      | none =>
        have hb2 : (setSuballocationIndexLoop i (bufs, s) us).1[bi]? = none := by
          rw [List.getElem?_eq_none_iff] at hb ⊢
          rw [setSuballocationIndexLoop_length]
          exact hb
        have hstep1 : setSuballocationIndexLoop i (bufs, s) (u :: us) =
            setSuballocationIndexLoop i (bufs, s) us := by
          simp [setSuballocationIndexLoop, hu, hb]
        have hstep2 : setSuballocationIndexLoop i
            ((setSuballocationIndexLoop i (bufs, s) us).1, s) (u :: us) =
            setSuballocationIndexLoop i
              ((setSuballocationIndexLoop i (bufs, s) us).1, s) us := by
          simp [setSuballocationIndexLoop, hu, hb2]
        rw [hstep1, hstep2]
        exact ih bufs s
      | some b =>
        by_cases hs : b.isSuballocated = true
        · by_cases hm : i ∈ b.suballocations
          · have hlen : bi < bufs.length := by
              rw [List.getElem?_eq_some] at hb; exact hb.1
            have hset : (bufs.set bi { b with currentAllocation := i })[bi]? =
                some { b with currentAllocation := i } := List.getElem?_set_eq hlen
            obtain ⟨b', hb', hbsub, hbor⟩ := setSuballocationIndexLoop_preserves i us
              (bufs.set bi { b with currentAllocation := i }) true bi _ hset
            have hsub' : b'.isSuballocated = true := by simpa [hs] using hbsub
            have hcur : b'.currentAllocation = i ∧ i ∈ b'.suballocations := by
              rcases hbor with h | h
              · rw [h]; exact ⟨rfl, by simpa using hm⟩
              · exact h
            have heta : { b' with currentAllocation := i } = b' :=
              bufferDesc_set_current_self b' i hcur.1
            have hstep1 : setSuballocationIndexLoop i (bufs, s) (u :: us) =
                setSuballocationIndexLoop i
                  (bufs.set bi { b with currentAllocation := i }, true) us := by
              simp [setSuballocationIndexLoop, hu, hb, hs, hm]
            have hstep2 : setSuballocationIndexLoop i
                ((setSuballocationIndexLoop i
                  (bufs.set bi { b with currentAllocation := i }, true) us).1, s)
                (u :: us) =
                setSuballocationIndexLoop i
                  ((setSuballocationIndexLoop i
                    (bufs.set bi { b with currentAllocation := i }, true) us).1.set bi
                    { b' with currentAllocation := i }, true) us := by
              simp [setSuballocationIndexLoop, hu, hb', hsub', hcur.2]
            rw [hstep1, hstep2, heta,
              list_set_self _ bi b' hb']
            exact ih (bufs.set bi { b with currentAllocation := i }) true
          · by_cases hc : w64 (w64 (b.suballocations.length * b.suballocationsSize) +
                b.suballocationsSize) > b.allocation.size
            · have hstep1 : setSuballocationIndexLoop i (bufs, s) (u :: us) =
                  (bufs, s, some ⟨.ArgumentOutOfRange,
                    "Cannot add new suballocation, exceeding buffer size of " ++
                      toString b.allocation.size⟩) := by
                simp [setSuballocationIndexLoop, hu, hb, hs, hm, hc]
              rw [hstep1]
              exact hstep1
            · have hlen : bi < bufs.length := by
                rw [List.getElem?_eq_some] at hb; exact hb.1
              have hset : (bufs.set bi { b with currentAllocation := i, suballocations := b.suballocations ++ [i] })[bi]? =
                  some { b with currentAllocation := i, suballocations := b.suballocations ++ [i] } :=
                List.getElem?_set_eq hlen
              obtain ⟨b', hb', hbsub, hbor⟩ := setSuballocationIndexLoop_preserves i us
                (bufs.set bi { b with currentAllocation := i, suballocations := b.suballocations ++ [i] })
                true bi _ hset
              have hsub' : b'.isSuballocated = true := by simpa [hs] using hbsub
              have hcur : b'.currentAllocation = i ∧ i ∈ b'.suballocations := by
                rcases hbor with h | h
                · rw [h]; exact ⟨rfl, by simp⟩
                · exact h
              have heta : { b' with currentAllocation := i } = b' :=
                bufferDesc_set_current_self b' i hcur.1
              have hstep1 : setSuballocationIndexLoop i (bufs, s) (u :: us) =
                  setSuballocationIndexLoop i
                    (bufs.set bi { b with currentAllocation := i, suballocations := b.suballocations ++ [i] },
                      true) us := by
                simp [setSuballocationIndexLoop, hu, hb, hs, hm, hc]
              have hstep2 : setSuballocationIndexLoop i
                  ((setSuballocationIndexLoop i
                    (bufs.set bi { b with currentAllocation := i, suballocations := b.suballocations ++ [i] },
                      true) us).1, s) (u :: us) =
                  setSuballocationIndexLoop i
                    ((setSuballocationIndexLoop i
                      (bufs.set bi { b with currentAllocation := i, suballocations := b.suballocations ++ [i] },
                        true) us).1.set bi { b' with currentAllocation := i }, true) us := by
                simp [setSuballocationIndexLoop, hu, hb', hsub', hcur.2]
              rw [hstep1, hstep2, heta, list_set_self _ bi b' hb']
              exact ih (bufs.set bi
                { b with currentAllocation := i, suballocations := b.suballocations ++ [i] }) true
        · obtain ⟨b', hb', hbsub, _⟩ :=
            setSuballocationIndexLoop_preserves i us bufs s bi b hb
          have hsub' : b'.isSuballocated = false := by
            rw [hbsub]; simpa using hs
          have hstep1 : setSuballocationIndexLoop i (bufs, s) (u :: us) =
              setSuballocationIndexLoop i (bufs, s) us := by
            simp [setSuballocationIndexLoop, hu, hb, hs]
          have hstep2 : setSuballocationIndexLoop i
              ((setSuballocationIndexLoop i (bufs, s) us).1, s) (u :: us) =
              setSuballocationIndexLoop i
                ((setSuballocationIndexLoop i (bufs, s) us).1, s) us := by
            simp [setSuballocationIndexLoop, hu, hb', hsub']
          rw [hstep1, hstep2]
          exact ih bufs s

/-- C3 (amended): `setSuballocationIndex` returns an unsupported error on
every backend other than Vulkan; an argument-out-of-range error for every
negative index; a not-found runtime error when the name resolves no uniform.
The per-group loop behavior, for any accumulated buffers and any remaining
matching groups: an expired reference, a missing group or a non-suballocated
group is skipped; a group with the index already registered is switched to it
and marks success; a group with capacity left registers the index and marks
success; and a group whose capacity would be exceeded stops the loop at once
with an out-of-range error naming the allocation size, returning the
accumulated buffers unchanged — so the failing group's registered set is not
modified, while matching groups processed earlier keep their updates.  At the
top level an early loop error is returned as the call's result together with
the accumulated buffers, and a completed loop yields success exactly when its
flag says some matching group was updated, else a not-found runtime error. -/
theorem C3_setSuballocationIndex_result_amended :
    (∀ (st : ShaderUniformsState) (name : String) (i : Int),
      st.backend ≠ .Vulkan →
      setSuballocationIndex st name i =
        (st, ⟨.Unsupported, "Suballocation is only available for Vulkan for now"⟩)) ∧
    (∀ (st : ShaderUniformsState) (name : String) (i : Int),
      st.backend = .Vulkan → i < 0 →
      setSuballocationIndex st name i =
        (st, ⟨.ArgumentOutOfRange, "Invalid argument, index cannot be < 0"⟩)) ∧
    (∀ (st : ShaderUniformsState) (name : String) (i : Int),
      st.backend = .Vulkan → 0 ≤ i →
      (st.uniformsByName.filter (fun p => p.1 = name)).map Prod.snd = [] →
      setSuballocationIndex st name i =
        (st, ⟨.RuntimeError, "Could not find uniform " ++ name⟩)) ∧
    (∀ (i : Int) (buffers : List BufferDesc) (s : Bool) (u : UniformDesc)
        (us : List UniformDesc) (bi : Nat) (b : BufferDesc),
      u.buffer = some bi → buffers[bi]? = some b → b.isSuballocated = true →
      i ∉ b.suballocations →
      b.allocation.size <
        w64 (w64 (b.suballocations.length * b.suballocationsSize) + b.suballocationsSize) →
      setSuballocationIndexLoop i (buffers, s) (u :: us) =
        (buffers, s, some ⟨.ArgumentOutOfRange,
          "Cannot add new suballocation, exceeding buffer size of " ++
            toString b.allocation.size⟩)) ∧
    (∀ (st : ShaderUniformsState) (name : String) (i : Int)
        (b1 : List BufferDesc) (s1 : Bool) (err : IglResult),
      st.backend = .Vulkan → 0 ≤ i →
      (st.uniformsByName.filter (fun p => p.1 = name)).map Prod.snd ≠ [] →
      setSuballocationIndexLoop i (st.buffers, false)
        ((st.uniformsByName.filter (fun p => p.1 = name)).map Prod.snd) =
        (b1, s1, some err) →
      setSuballocationIndex st name i = ({ st with buffers := b1 }, err)) ∧
    (∀ (i : Int) (buffers : List BufferDesc) (s : Bool) (u : UniformDesc)
        (us : List UniformDesc) (bi : Nat) (b : BufferDesc),
      u.buffer = some bi → buffers[bi]? = some b → b.isSuballocated = true →
      i ∈ b.suballocations →
      setSuballocationIndexLoop i (buffers, s) (u :: us) =
        setSuballocationIndexLoop i
          (buffers.set bi { b with currentAllocation := i }, true) us) ∧
    (∀ (i : Int) (buffers : List BufferDesc) (s : Bool) (u : UniformDesc)
        (us : List UniformDesc) (bi : Nat) (b : BufferDesc),
      u.buffer = some bi → buffers[bi]? = some b → b.isSuballocated = true →
      i ∉ b.suballocations →
      w64 (w64 (b.suballocations.length * b.suballocationsSize) + b.suballocationsSize) ≤
        b.allocation.size →
      setSuballocationIndexLoop i (buffers, s) (u :: us) =
        setSuballocationIndexLoop i
          (buffers.set bi
            { b with currentAllocation := i, suballocations := b.suballocations ++ [i] },
            true) us) ∧
    (∀ (i : Int) (buffers : List BufferDesc) (s : Bool) (u : UniformDesc)
        (us : List UniformDesc),
      (u.buffer = none ∨
        (∃ bi, u.buffer = some bi ∧ buffers[bi]? = none) ∨
        (∃ bi b, u.buffer = some bi ∧ buffers[bi]? = some b ∧
          b.isSuballocated = false)) →
      setSuballocationIndexLoop i (buffers, s) (u :: us) =
        setSuballocationIndexLoop i (buffers, s) us) ∧
    (∀ (st : ShaderUniformsState) (name : String) (i : Int)
        (b1 : List BufferDesc) (s1 : Bool),
      st.backend = .Vulkan → 0 ≤ i →
      (st.uniformsByName.filter (fun p => p.1 = name)).map Prod.snd ≠ [] →
      setSuballocationIndexLoop i (st.buffers, false)
        ((st.uniformsByName.filter (fun p => p.1 = name)).map Prod.snd) =
        (b1, s1, none) →
      setSuballocationIndex st name i =
        (if s1 = true then ({ st with buffers := b1 }, ⟨.Ok, ""⟩)
         else ({ st with buffers := b1 },
           ⟨.RuntimeError, "Could not update suballocation index for " ++ name⟩))) := by
  refine ⟨?_, ?_, ?_, ?_, ?_, ?_, ?_, ?_, ?_⟩
  · intro st name i hb
    simp [setSuballocationIndex, hb]
  · intro st name i hb hi
    simp [setSuballocationIndex, hb, hi]
  · intro st name i hb hi hm
    have hnotlt : ¬i < 0 := by omega
    simp [setSuballocationIndex, hb, hnotlt, hm]
  · intro i buffers s u us bi b hu hget hsub hmem hcap
    simp [setSuballocationIndexLoop, hu, hget, hsub, hmem, hcap]
  · intro st name i b1 s1 err hb hi hne hloop
    obtain ⟨bk, bufs, un, bn⟩ := st
    simp only at hb hne hloop
    subst hb
    have hnotlt : ¬i < 0 := by omega
    have hE : ((un.filter (fun p => p.1 = name)).map Prod.snd).isEmpty = false := by
      cases hM : (un.filter (fun p => p.1 = name)).map Prod.snd with
      | nil => exact absurd hM hne
      | cons a as => simp
    simp [setSuballocationIndex, hnotlt, hE, hloop]
  · intro i buffers s u us bi b hu hget hsub hmem
    simp [setSuballocationIndexLoop, hu, hget, hsub, hmem]
  · intro i buffers s u us bi b hu hget hsub hmem hcap
    have hnogt : ¬w64 (w64 (b.suballocations.length * b.suballocationsSize) +
        b.suballocationsSize) > b.allocation.size := by omega
    simp [setSuballocationIndexLoop, hu, hget, hsub, hmem, hnogt]
  · intro i buffers s u us h
    rcases h with hu | ⟨bi, hu, hget⟩ | ⟨bi, b, hu, hget, hsub⟩
    · simp [setSuballocationIndexLoop, hu]
    · simp [setSuballocationIndexLoop, hu, hget]
    · simp [setSuballocationIndexLoop, hu, hget, hsub]
  · intro st name i b1 s1 hb hi hne hloop
    obtain ⟨bk, bufs, un, bn⟩ := st
    simp only at hb hne hloop
    subst hb
    have hnotlt : ¬i < 0 := by omega
    have hE : ((un.filter (fun p => p.1 = name)).map Prod.snd).isEmpty = false := by
      cases hM : (un.filter (fun p => p.1 = name)).map Prod.snd with
      | nil => exact absurd hM hne
      | cons a as => simp
    simp [setSuballocationIndex, hnotlt, hE, hloop]

/-- C3 witness: the amended theorem applied at concrete inputs.  A Vulkan
registry with one suballocated group of unit size 40 in a 64-byte allocation
and index 0 registered rejects index 1 as out of range without mutating the
state; the loop-level conjunct shows the failing step returns the buffers
unchanged; and a Metal instance reports unsupported. -/
theorem C3_setSuballocationIndex_result_amended_witness :
    setSuballocationIndexLoop 1
        ([{ iglBufferDesc := ⟨"blkB", .Fragment, 40, true, 0, [⟨"u", .Float4, 0, 1⟩]⟩
            allocation := ⟨List.replicate 64 0, 64, some ⟨0, 64⟩⟩
            uniforms := [⟨⟨"u", .Float4, 0, 1⟩, some 0⟩]
            isSuballocated := true
            suballocationsSize := 40
            currentAllocation := 0
            suballocations := [0] }], false)
        [⟨⟨"u", .Float4, 0, 1⟩, some 0⟩] =
      ([{ iglBufferDesc := ⟨"blkB", .Fragment, 40, true, 0, [⟨"u", .Float4, 0, 1⟩]⟩
          allocation := ⟨List.replicate 64 0, 64, some ⟨0, 64⟩⟩
          uniforms := [⟨⟨"u", .Float4, 0, 1⟩, some 0⟩]
          isSuballocated := true
          suballocationsSize := 40
          currentAllocation := 0
          suballocations := [0] }], false,
        some ⟨.ArgumentOutOfRange,
          "Cannot add new suballocation, exceeding buffer size of " ++
            toString (64 : Nat)⟩) ∧
    setSuballocationIndex
        ⟨.Vulkan,
          [{ iglBufferDesc := ⟨"blkB", .Fragment, 40, true, 0, [⟨"u", .Float4, 0, 1⟩]⟩
             allocation := ⟨List.replicate 64 0, 64, some ⟨0, 64⟩⟩
             uniforms := [⟨⟨"u", .Float4, 0, 1⟩, some 0⟩]
             isSuballocated := true
             suballocationsSize := 40
             currentAllocation := 0
             suballocations := [0] }],
          [("u", ⟨⟨"u", .Float4, 0, 1⟩, some 0⟩)],
          [(("blkB", .Fragment), 0)]⟩ "u" 1 =
      (⟨.Vulkan,
          [{ iglBufferDesc := ⟨"blkB", .Fragment, 40, true, 0, [⟨"u", .Float4, 0, 1⟩]⟩
             allocation := ⟨List.replicate 64 0, 64, some ⟨0, 64⟩⟩
             uniforms := [⟨⟨"u", .Float4, 0, 1⟩, some 0⟩]
             isSuballocated := true
             suballocationsSize := 40
             currentAllocation := 0
             suballocations := [0] }],
          [("u", ⟨⟨"u", .Float4, 0, 1⟩, some 0⟩)],
          [(("blkB", .Fragment), 0)]⟩,
        ⟨.ArgumentOutOfRange,
          "Cannot add new suballocation, exceeding buffer size of " ++
            toString (64 : Nat)⟩) ∧
    setSuballocationIndex ⟨.Metal, [], [], []⟩ "x" 0 =
      (⟨.Metal, [], [], []⟩,
        ⟨.Unsupported, "Suballocation is only available for Vulkan for now"⟩) := by
  refine ⟨?_, ?_, ?_⟩
  · exact C3_setSuballocationIndex_result_amended.2.2.2.1 1
      [{ iglBufferDesc := ⟨"blkB", .Fragment, 40, true, 0, [⟨"u", .Float4, 0, 1⟩]⟩
         allocation := ⟨List.replicate 64 0, 64, some ⟨0, 64⟩⟩
         uniforms := [⟨⟨"u", .Float4, 0, 1⟩, some 0⟩]
         isSuballocated := true
         suballocationsSize := 40
         currentAllocation := 0
         suballocations := [0] }] false ⟨⟨"u", .Float4, 0, 1⟩, some 0⟩ [] 0
      ⟨⟨"blkB", .Fragment, 40, true, 0, [⟨"u", .Float4, 0, 1⟩]⟩,
        ⟨List.replicate 64 0, 64, some ⟨0, 64⟩⟩,
        [⟨⟨"u", .Float4, 0, 1⟩, some 0⟩], true, 40, 0, [0]⟩
      rfl (by decide) (by decide) (by decide) (by decide)
  · exact C3_setSuballocationIndex_result_amended.2.2.2.2.1
      ⟨.Vulkan,
        [{ iglBufferDesc := ⟨"blkB", .Fragment, 40, true, 0, [⟨"u", .Float4, 0, 1⟩]⟩
           allocation := ⟨List.replicate 64 0, 64, some ⟨0, 64⟩⟩
           uniforms := [⟨⟨"u", .Float4, 0, 1⟩, some 0⟩]
           isSuballocated := true
           suballocationsSize := 40
           currentAllocation := 0
           suballocations := [0] }],
        [("u", ⟨⟨"u", .Float4, 0, 1⟩, some 0⟩)],
        [(("blkB", .Fragment), 0)]⟩ "u" 1
      [{ iglBufferDesc := ⟨"blkB", .Fragment, 40, true, 0, [⟨"u", .Float4, 0, 1⟩]⟩
         allocation := ⟨List.replicate 64 0, 64, some ⟨0, 64⟩⟩
         uniforms := [⟨⟨"u", .Float4, 0, 1⟩, some 0⟩]
         isSuballocated := true
         suballocationsSize := 40
         currentAllocation := 0
         suballocations := [0] }] false
      ⟨.ArgumentOutOfRange,
        "Cannot add new suballocation, exceeding buffer size of " ++
          toString (64 : Nat)⟩
      rfl (by decide) (by decide) (by decide)
  · exact C3_setSuballocationIndex_result_amended.1 ⟨.Metal, [], [], []⟩ "x" 0 (by decide)

/-- C4 counterexample: the claim says that for every suballocated BufferGroup
with index K already registered, selecting K again returns success.  In the
reachable state produced by the C3 scenario (registry with two suballocated
groups for the name "u", unit sizes 16 and 40 in 64-byte allocations; select
index 0, then index 1, which registers 1 in the first group and then
capacity-fails on the second), index 1 is registered for the first
(suballocated) group, yet selecting 1 again returns an argument-out-of-range
error from the later matching group, not success. -/
theorem C4_reselect_registered_index_error_from_later_group :
    ((setSuballocationIndex
        ((setSuballocationIndex
          (shaderUniformsInit ⟨.Vulkan, true, true, 4096, 64⟩
            [⟨"blkA", .Vertex, 16, true, 0, [⟨"u", .Float4, 0, 1⟩]⟩,
             ⟨"blkB", .Fragment, 40, true, 1, [⟨"u", .Float4, 0, 1⟩]⟩]) "u" 0).1)
        "u" 1).1.buffers.map (fun b => (b.isSuballocated, b.suballocations))) =
      [(true, [0, 1]), (true, [0])] ∧
    (setSuballocationIndex
        ((setSuballocationIndex
          ((setSuballocationIndex
            (shaderUniformsInit ⟨.Vulkan, true, true, 4096, 64⟩
              [⟨"blkA", .Vertex, 16, true, 0, [⟨"u", .Float4, 0, 1⟩]⟩,
               ⟨"blkB", .Fragment, 40, true, 1, [⟨"u", .Float4, 0, 1⟩]⟩]) "u" 0).1)
          "u" 1).1)
        "u" 1).2.code = .ArgumentOutOfRange := by
  decide

/-- C4 (amended): re-selecting a suballocation index K already registered for
a group switches only that group's `currentAllocation` to K — the physical
offset is K * unitSize both times — leaves its registered index set
unchanged, marks the update as a success, and the loop continues over the
remaining matching groups; when the remaining matching groups raise no
capacity error the call returns success; and the whole call is idempotent in
every state: repeating `setSuballocationIndex` with the same name and index
returns the same result and the same final state as the first call (in
particular, when a later matching group capacity-fails, both calls return the
same out-of-range error instead of success). -/
theorem C4_reselect_registered_suballocation_amended :
    (∀ (K : Int) (buffers : List BufferDesc) (s : Bool) (u : UniformDesc)
        (us : List UniformDesc) (bi : Nat) (b : BufferDesc),
      u.buffer = some bi → buffers[bi]? = some b → b.isSuballocated = true →
      K ∈ b.suballocations →
      setSuballocationIndexLoop K (buffers, s) (u :: us) =
        setSuballocationIndexLoop K
          (buffers.set bi { b with currentAllocation := K }, true) us) ∧
    (∀ (st : ShaderUniformsState) (name : String) (K : Int) (u : UniformDesc)
        (us : List UniformDesc) (bi : Nat) (b : BufferDesc)
        (b2 : List BufferDesc) (s2 : Bool),
      st.backend = .Vulkan → 0 ≤ K →
      (st.uniformsByName.filter (fun p => p.1 = name)).map Prod.snd = u :: us →
      u.buffer = some bi → st.buffers[bi]? = some b → b.isSuballocated = true →
      K ∈ b.suballocations →
      setSuballocationIndexLoop K
        (st.buffers.set bi { b with currentAllocation := K }, true) us =
        (b2, s2, none) →
      setSuballocationIndex st name K = ({ st with buffers := b2 }, ⟨.Ok, ""⟩)) ∧
    (∀ (st : ShaderUniformsState) (name : String) (K : Int),
      setSuballocationIndex (setSuballocationIndex st name K).1 name K =
        setSuballocationIndex st name K) := by
  refine ⟨?_, ?_, ?_⟩
  · intro K buffers s u us bi b hu hget hsub hmem
    simp [setSuballocationIndexLoop, hu, hget, hsub, hmem]
  · intro st name K u us bi b b2 s2 hb hK hm hu hget hsub hmem hloop
    obtain ⟨bk, bufs, un, bn⟩ := st
    simp only at hb hm hget hloop
    subst hb
    have hnotlt : ¬K < 0 := by omega
    have hs2 : s2 = true := by
      have hmono := setSuballocationIndexLoop_success_mono K us
        (bufs.set bi { b with currentAllocation := K })
      rw [hloop] at hmono
      exact hmono
    subst hs2
    have hE : ((un.filter (fun p => p.1 = name)).map Prod.snd).isEmpty = false := by
      rw [hm]; rfl
    have hfirst : setSuballocationIndexLoop K (bufs, false)
        ((un.filter (fun p => p.1 = name)).map Prod.snd) = (b2, true, none) := by
      rw [hm]
      have hstep : setSuballocationIndexLoop K (bufs, false) (u :: us) =
          setSuballocationIndexLoop K
            (bufs.set bi { b with currentAllocation := K }, true) us := by
        simp [setSuballocationIndexLoop, hu, hget, hsub, hmem]
      rw [hstep, hloop]
    simp [setSuballocationIndex, hnotlt, hE, hfirst]
  · intro st name K
    obtain ⟨bk, bufs, un, bn⟩ := st
    by_cases hb : bk = .Vulkan
    · subst hb
      by_cases hK : K < 0
      · simp [setSuballocationIndex, hK]
      · cases hM : (un.filter (fun p => p.1 = name)).map Prod.snd with
        | nil =>
          simp [setSuballocationIndex, hK, hM]
        | cons m ms =>
          have hE : ((un.filter (fun p => p.1 = name)).map Prod.snd).isEmpty = false := by
            rw [hM]; rfl
          have hidem := setSuballocationIndexLoop_idem K
            ((un.filter (fun p => p.1 = name)).map Prod.snd) bufs false
          cases hr : setSuballocationIndexLoop K (bufs, false)
              ((un.filter (fun p => p.1 = name)).map Prod.snd) with
          | mk b1 rest =>
            obtain ⟨s1, e1⟩ := rest
            rw [hr] at hidem
            cases e1 with
            | none =>
              cases s1 with
              | false => simp [setSuballocationIndex, hK, hE, hr, hidem]
              | true => simp [setSuballocationIndex, hK, hE, hr, hidem]
            | some err =>
              simp [setSuballocationIndex, hK, hE, hr, hidem]
    · simp [setSuballocationIndex, hb]

/-- C4 witness: the amended theorem applied at concrete inputs — re-selecting
registered index 5 in a single-group Vulkan registry steps the loop to the
switched group and returns success; and the call on the two-group
capacity-failure state is idempotent. -/
theorem C4_reselect_registered_suballocation_amended_witness :
    setSuballocationIndexLoop 5
        ([{ iglBufferDesc := ⟨"blk", .Vertex, 16, true, 0, [⟨"u", .Float4, 0, 1⟩]⟩
            allocation := ⟨List.replicate 64 0, 64, some ⟨0, 64⟩⟩
            uniforms := [⟨⟨"u", .Float4, 0, 1⟩, some 0⟩]
            isSuballocated := true
            suballocationsSize := 16
            currentAllocation := 5
            suballocations := [5] }], false)
        [⟨⟨"u", .Float4, 0, 1⟩, some 0⟩] =
      setSuballocationIndexLoop 5
        ([{ iglBufferDesc := ⟨"blk", .Vertex, 16, true, 0, [⟨"u", .Float4, 0, 1⟩]⟩
            allocation := ⟨List.replicate 64 0, 64, some ⟨0, 64⟩⟩
            uniforms := [⟨⟨"u", .Float4, 0, 1⟩, some 0⟩]
            isSuballocated := true
            suballocationsSize := 16
            currentAllocation := 5
            suballocations := [5] }].set 0
          { iglBufferDesc := ⟨"blk", .Vertex, 16, true, 0, [⟨"u", .Float4, 0, 1⟩]⟩
            allocation := ⟨List.replicate 64 0, 64, some ⟨0, 64⟩⟩
            uniforms := [⟨⟨"u", .Float4, 0, 1⟩, some 0⟩]
            isSuballocated := true
            suballocationsSize := 16
            currentAllocation := 5
            suballocations := [5] }, true) [] ∧
    setSuballocationIndex
        ⟨.Vulkan,
          [{ iglBufferDesc := ⟨"blk", .Vertex, 16, true, 0, [⟨"u", .Float4, 0, 1⟩]⟩
             allocation := ⟨List.replicate 64 0, 64, some ⟨0, 64⟩⟩
             uniforms := [⟨⟨"u", .Float4, 0, 1⟩, some 0⟩]
             isSuballocated := true
             suballocationsSize := 16
             currentAllocation := 5
             suballocations := [5] }],
          [("u", ⟨⟨"u", .Float4, 0, 1⟩, some 0⟩)],
          [(("blk", .Vertex), 0)]⟩ "u" 5 =
      (⟨.Vulkan,
          [{ iglBufferDesc := ⟨"blk", .Vertex, 16, true, 0, [⟨"u", .Float4, 0, 1⟩]⟩
             allocation := ⟨List.replicate 64 0, 64, some ⟨0, 64⟩⟩
             uniforms := [⟨⟨"u", .Float4, 0, 1⟩, some 0⟩]
             isSuballocated := true
             suballocationsSize := 16
             currentAllocation := 5
             suballocations := [5] }],
          [("u", ⟨⟨"u", .Float4, 0, 1⟩, some 0⟩)],
          [(("blk", .Vertex), 0)]⟩, ⟨.Ok, ""⟩) ∧
    setSuballocationIndex
        (setSuballocationIndex
          ((setSuballocationIndex
            ((setSuballocationIndex
              (shaderUniformsInit ⟨.Vulkan, true, true, 4096, 64⟩
                [⟨"blkA", .Vertex, 16, true, 0, [⟨"u", .Float4, 0, 1⟩]⟩,
                 ⟨"blkB", .Fragment, 40, true, 1, [⟨"u", .Float4, 0, 1⟩]⟩]) "u" 0).1)
            "u" 1).1) "u" 1).1 "u" 1 =
      setSuballocationIndex
        ((setSuballocationIndex
          ((setSuballocationIndex
            (shaderUniformsInit ⟨.Vulkan, true, true, 4096, 64⟩
              [⟨"blkA", .Vertex, 16, true, 0, [⟨"u", .Float4, 0, 1⟩]⟩,
               ⟨"blkB", .Fragment, 40, true, 1, [⟨"u", .Float4, 0, 1⟩]⟩]) "u" 0).1)
          "u" 1).1) "u" 1 := by
  refine ⟨?_, ?_, ?_⟩
  · exact C4_reselect_registered_suballocation_amended.1 5
      [{ iglBufferDesc := ⟨"blk", .Vertex, 16, true, 0, [⟨"u", .Float4, 0, 1⟩]⟩
         allocation := ⟨List.replicate 64 0, 64, some ⟨0, 64⟩⟩
         uniforms := [⟨⟨"u", .Float4, 0, 1⟩, some 0⟩]
         isSuballocated := true
         suballocationsSize := 16
         currentAllocation := 5
         suballocations := [5] }] false ⟨⟨"u", .Float4, 0, 1⟩, some 0⟩ [] 0
      ⟨⟨"blk", .Vertex, 16, true, 0, [⟨"u", .Float4, 0, 1⟩]⟩,
        ⟨List.replicate 64 0, 64, some ⟨0, 64⟩⟩,
        [⟨⟨"u", .Float4, 0, 1⟩, some 0⟩], true, 16, 5, [5]⟩
      rfl (by decide) (by decide) (by decide)
  · exact C4_reselect_registered_suballocation_amended.2.1
      ⟨.Vulkan,
        [{ iglBufferDesc := ⟨"blk", .Vertex, 16, true, 0, [⟨"u", .Float4, 0, 1⟩]⟩
           allocation := ⟨List.replicate 64 0, 64, some ⟨0, 64⟩⟩
           uniforms := [⟨⟨"u", .Float4, 0, 1⟩, some 0⟩]
           isSuballocated := true
           suballocationsSize := 16
           currentAllocation := 5
           suballocations := [5] }],
        [("u", ⟨⟨"u", .Float4, 0, 1⟩, some 0⟩)],
        [(("blk", .Vertex), 0)]⟩ "u" 5 ⟨⟨"u", .Float4, 0, 1⟩, some 0⟩ [] 0
      ⟨⟨"blk", .Vertex, 16, true, 0, [⟨"u", .Float4, 0, 1⟩]⟩,
        ⟨List.replicate 64 0, 64, some ⟨0, 64⟩⟩,
        [⟨⟨"u", .Float4, 0, 1⟩, some 0⟩], true, 16, 5, [5]⟩
      [{ iglBufferDesc := ⟨"blk", .Vertex, 16, true, 0, [⟨"u", .Float4, 0, 1⟩]⟩
         allocation := ⟨List.replicate 64 0, 64, some ⟨0, 64⟩⟩
         uniforms := [⟨⟨"u", .Float4, 0, 1⟩, some 0⟩]
         isSuballocated := true
         suballocationsSize := 16
         currentAllocation := 5
         suballocations := [5] }] true
      rfl (by decide) (by decide) rfl (by decide) rfl (by decide) (by decide)
  · exact C4_reselect_registered_suballocation_amended.2.2
      ((setSuballocationIndex
        ((setSuballocationIndex
          (shaderUniformsInit ⟨.Vulkan, true, true, 4096, 64⟩
            [⟨"blkA", .Vertex, 16, true, 0, [⟨"u", .Float4, 0, 1⟩]⟩,
             ⟨"blkB", .Fragment, 40, true, 1, [⟨"u", .Float4, 0, 1⟩]⟩]) "u" 0).1)
        "u" 1).1) "u" 1

/-- Helper: when every slot in the list fails the non-Vulkan size check, the
write loop leaves its accumulator untouched. -/
theorem setUniformBytesList_all_mismatch (backend : BackendType) (data : List Nat)
    (es c ai : Nat) :
    ∀ (us : List UniformDesc) (bufs : List BufferDesc) (evs : List CopyEvent),
      backend ≠ .Vulkan →
      (∀ u ∈ us, es ≠ getUniformExpectedSize u.iglMemberDesc.type backend) →
      setUniformBytesList backend data es c ai (bufs, evs) us = (bufs, evs) := by
  intro us
  induction us with
  | nil => intro bufs evs _ _; rfl
  | cons u us ih =>
    intro bufs evs hb hall
    have hu : es ≠ getUniformExpectedSize u.iglMemberDesc.type backend :=
      hall u (by simp)
    have hstep : setUniformBytesSlot backend bufs data es c ai u = (bufs, []) := by
      simp [setUniformBytesSlot, hb, hu]
    simp only [setUniformBytesList, hstep, List.append_nil]
    exact ih bufs evs hb (fun v hv => hall v (by simp [hv]))

/-- C5: on every backend other than Vulkan, a `setUniformBytes` call whose
element size differs from the backend-adjusted expected size for every
matching slot writes nothing — the registry state, and so every byte of every
staging allocation, is unchanged and no copy is performed; on Vulkan the
per-slot processing coincides with the spec-side variant that has no size
check at all, so the size check is skipped entirely; and the backend-adjusted
expected sizes are 48 bytes for a 3x3 matrix on Metal and Vulkan, the packed
36 on OpenGL, and 16 bytes for a 3-vector on Metal. -/
theorem C5_size_mismatch_writes_nothing_vulkan_skips_check :
    (∀ (st : ShaderUniformsState) (name : String) (data : List Nat) (es c ai : Nat),
      st.backend ≠ .Vulkan →
      (∀ u ∈ (st.uniformsByName.filter (fun p => p.1 = name)).map Prod.snd,
        es ≠ getUniformExpectedSize u.iglMemberDesc.type st.backend) →
      setUniformBytes st name data es c ai = (st, [])) ∧
    (∀ (bufs : List BufferDesc) (data : List Nat) (es c ai : Nat) (u : UniformDesc),
      setUniformBytesSlot .Vulkan bufs data es c ai u =
        setUniformBytesSlotSpecNoSizeCheck bufs data es c ai u) ∧
    getUniformExpectedSize .Mat3x3 .Metal = 48 ∧
    getUniformExpectedSize .Mat3x3 .Vulkan = 48 ∧
    getUniformExpectedSize .Mat3x3 .OpenGL = 36 ∧
    getUniformExpectedSize .Float3 .Metal = 16 := by
  refine ⟨?_, ?_, by decide, by decide, by decide, by decide⟩
  · intro st name data es c ai hb hall
    obtain ⟨bk, bufs, un, bn⟩ := st
    simp only at hb hall
    simp only [setUniformBytes]
    split
    · rfl
    · rw [setUniformBytesList_all_mismatch bk data es c ai _ bufs [] hb hall]
  · intro bufs data es c ai u
    simp [setUniformBytesSlot, setUniformBytesSlotSpecNoSizeCheck]

/-- C5 witness: the theorem applied at concrete inputs.  An OpenGL registry
with one float4 slot rejects a 5-byte element size without any state change,
and the Vulkan slot processing at a concrete slot equals the no-size-check
variant. -/
theorem C5_size_mismatch_writes_nothing_witness :
    setUniformBytes
        ⟨.OpenGL,
          [{ iglBufferDesc := ⟨"blk", .Vertex, 16, true, 0, [⟨"u", .Float4, 0, 1⟩]⟩
             allocation := ⟨List.replicate 16 0, 16, none⟩
             uniforms := [⟨⟨"u", .Float4, 0, 1⟩, some 0⟩] }],
          [("u", ⟨⟨"u", .Float4, 0, 1⟩, some 0⟩)],
          [(("blk", .Vertex), 0)]⟩ "u" [1, 2, 3, 4, 5] 5 1 0 =
      (⟨.OpenGL,
          [{ iglBufferDesc := ⟨"blk", .Vertex, 16, true, 0, [⟨"u", .Float4, 0, 1⟩]⟩
             allocation := ⟨List.replicate 16 0, 16, none⟩
             uniforms := [⟨⟨"u", .Float4, 0, 1⟩, some 0⟩] }],
          [("u", ⟨⟨"u", .Float4, 0, 1⟩, some 0⟩)],
          [(("blk", .Vertex), 0)]⟩, []) ∧
    setUniformBytesSlot .Vulkan [] [1, 2] 5 1 0 ⟨⟨"u", .Float4, 0, 1⟩, none⟩ =
      setUniformBytesSlotSpecNoSizeCheck [] [1, 2] 5 1 0 ⟨⟨"u", .Float4, 0, 1⟩, none⟩ := by
  constructor
  · exact C5_size_mismatch_writes_nothing_vulkan_skips_check.1
      ⟨.OpenGL,
        [{ iglBufferDesc := ⟨"blk", .Vertex, 16, true, 0, [⟨"u", .Float4, 0, 1⟩]⟩
           allocation := ⟨List.replicate 16 0, 16, none⟩
           uniforms := [⟨⟨"u", .Float4, 0, 1⟩, some 0⟩] }],
        [("u", ⟨⟨"u", .Float4, 0, 1⟩, some 0⟩)],
        [(("blk", .Vertex), 0)]⟩ "u" [1, 2, 3, 4, 5] 5 1 0 (by decide) (by decide)
  · exact C5_size_mismatch_writes_nothing_vulkan_skips_check.2.1 [] [1, 2] 5 1 0
      ⟨⟨"u", .Float4, 0, 1⟩, none⟩

/-- Helper: a slot whose range check fails is left untouched by
`setUniformBytesSlot`, whatever the other checks would say. -/
theorem setUniformBytesSlot_range_reject (backend : BackendType)
    (bufs : List BufferDesc) (data : List Nat) (es c ai : Nat) (u : UniformDesc)
    (h : w64 (ai + c) > u.iglMemberDesc.arrayLength) :
    setUniformBytesSlot backend bufs data es c ai u = (bufs, []) := by
  unfold setUniformBytesSlot
  split
  · rfl
  · rfl


/-- C6: the array-range check of `setUniformBytes`.  A slot for which
`arrayIndex + count` exceeds the declared array length is rejected — the
write loop over the matching slots behaves exactly as if that slot were
absent, so the other matching slots are still attempted; a slot with
`arrayIndex + count` equal to the declared length passes the range check and
(with the size check satisfied, a live buffer and the copy in bounds) its
copy is performed; and `arrayIndex + count = declaredArrayLength + 1` is
always rejected. -/
theorem C6_array_range_check_boundary :
    (∀ (backend : BackendType) (data : List Nat) (es c ai : Nat) (u : UniformDesc)
        (l1 l2 : List UniformDesc) (bufs : List BufferDesc) (evs : List CopyEvent),
      w64 (ai + c) > u.iglMemberDesc.arrayLength →
      setUniformBytesList backend data es c ai (bufs, evs) (l1 ++ u :: l2) =
        setUniformBytesList backend data es c ai (bufs, evs) (l1 ++ l2)) ∧
    (∀ (backend : BackendType) (bufs : List BufferDesc) (data : List Nat)
        (es c ai : Nat) (u : UniformDesc) (bi : Nat) (b : BufferDesc),
      backend = .Vulkan ∨ es = getUniformExpectedSize u.iglMemberDesc.type backend →
      w64 (ai + c) = u.iglMemberDesc.arrayLength →
      u.buffer = some bi → bufs.get? bi = some b →
      w64 (es * c) ≤ w64 (b.allocation.size + U64 -
        w64 (u.iglMemberDesc.offset + w64 (es * ai) +
          (if b.isSuballocated ∧ b.currentAllocation ≥ 0 then
            w64 (b.currentAllocation.toNat * b.suballocationsSize) else 0))) →
      (setUniformBytesSlot backend bufs data es c ai u).2 =
        [⟨bi, w64 (u.iglMemberDesc.offset + w64 (es * ai) +
          (if b.isSuballocated ∧ b.currentAllocation ≥ 0 then
            w64 (b.currentAllocation.toNat * b.suballocationsSize) else 0)),
          w64 (es * c)⟩]) ∧
    (∀ (backend : BackendType) (bufs : List BufferDesc) (data : List Nat)
        (es c ai : Nat) (u : UniformDesc),
      ai + c = u.iglMemberDesc.arrayLength + 1 → ai + c < U64 →
      setUniformBytesSlot backend bufs data es c ai u = (bufs, [])) := by
  refine ⟨?_, ?_, ?_⟩
  · intro backend data es c ai u l1 l2
    induction l1 with
    | nil =>
      intro bufs evs h
      simp only [List.nil_append, setUniformBytesList,
        setUniformBytesSlot_range_reject backend bufs data es c ai u h, List.append_nil]
    | cons x l1 ih =>
      intro bufs evs h
      simp only [List.cons_append, setUniformBytesList]
      exact ih _ _ h
  · intro backend bufs data es c ai u bi b hsz hrange hu hget hfit
    have hne : ¬(backend ≠ .Vulkan ∧
        es ≠ getUniformExpectedSize u.iglMemberDesc.type backend) := by
      rcases hsz with h | h
      · simp [h]
      · simp [h]
    have hnr : ¬(w64 (ai + c) > u.iglMemberDesc.arrayLength) := by omega
    simp only [setUniformBytesSlot, if_neg hne, if_neg hnr, hu, hget]
    rw [if_pos hfit]
  · intro backend bufs data es c ai u hone hsmall
    apply setUniformBytesSlot_range_reject
    have : w64 (ai + c) = ai + c := Nat.mod_eq_of_lt hsmall
    omega

/-- C6 witness: the range-check theorem applied at concrete inputs.  With a
declared array length of 5: `arrayIndex 3, count 3` (sum 6) is rejected and
the loop proceeds as if the slot were absent; `arrayIndex 2, count 3`
(sum 5, the boundary) is accepted and copies 12 bytes at offset 8; and a sum
equal to 6 = 5 + 1 is rejected at the slot level. -/
theorem C6_array_range_check_boundary_witness :
    setUniformBytesList .OpenGL [1, 2] 4 3 3 ([], [])
        ([] ++ ⟨⟨"u", .Float1, 0, 5⟩, none⟩ :: []) =
      setUniformBytesList .OpenGL [1, 2] 4 3 3 ([], []) ([] ++ []) ∧
    (setUniformBytesSlot .OpenGL
        [{ iglBufferDesc := ⟨"blk", .Vertex, 64, true, 0, [⟨"u", .Float1, 0, 5⟩]⟩
           allocation := ⟨List.replicate 64 0, 64, none⟩
           uniforms := [⟨⟨"u", .Float1, 0, 5⟩, some 0⟩] }]
        (List.replicate 12 9) 4 3 2 ⟨⟨"u", .Float1, 0, 5⟩, some 0⟩).2 =
      [⟨0, w64 ((0 : Nat) + w64 (4 * 2) +
        (if (false = true) ∧ (-1 : Int) ≥ 0 then w64 ((-1 : Int).toNat * 0) else 0)),
        w64 (4 * 3)⟩] ∧
    setUniformBytesSlot .Metal [] [1] 4 3 3 ⟨⟨"u", .Float1, 0, 5⟩, none⟩ = ([], []) := by
  refine ⟨?_, ?_, ?_⟩
  · exact C6_array_range_check_boundary.1 .OpenGL [1, 2] 4 3 3
      ⟨⟨"u", .Float1, 0, 5⟩, none⟩ [] [] [] [] (by decide)
  · exact C6_array_range_check_boundary.2.1 .OpenGL
      [{ iglBufferDesc := ⟨"blk", .Vertex, 64, true, 0, [⟨"u", .Float1, 0, 5⟩]⟩
         allocation := ⟨List.replicate 64 0, 64, none⟩
         uniforms := [⟨⟨"u", .Float1, 0, 5⟩, some 0⟩] }]
      (List.replicate 12 9) 4 3 2 ⟨⟨"u", .Float1, 0, 5⟩, some 0⟩ 0
      ⟨⟨"blk", .Vertex, 64, true, 0, [⟨"u", .Float1, 0, 5⟩]⟩,
        ⟨List.replicate 64 0, 64, none⟩, [⟨⟨"u", .Float1, 0, 5⟩, some 0⟩], false, 0, -1, []⟩
      (by decide) (by decide) rfl (by decide) (by decide)
  · exact C6_array_range_check_boundary.2.2 .Metal [] [1] 4 3 3
      ⟨⟨"u", .Float1, 0, 5⟩, none⟩ (by decide) (by decide)

/-- C7: publishing a buffer group on the non-OpenGL backends.  With a GPU
buffer present and no suballocation index selected, the full allocation is
uploaded at offset 0 and the buffer is bound at its reflected index with
offset 0; with a suballocated group and a selected index, the uploaded range
is `index * unitSize` for `unitSize` bytes and the bind uses the same
offset; the bind target is all-graphics on Vulkan and the single-stage
target otherwise.  On Metal with no GPU buffer, the staged bytes and the
declared data size are bound directly, with no upload. -/
theorem C7_bindBuffer_upload_and_bind_ranges :
    (∀ (backend : BackendType) (buffers : List BufferDesc)
        (gbp : String → Nat) (gin : String → ShaderStage → Int)
        (b : BufferDesc) (g : GpuBuffer),
      backend ≠ .OpenGL → b.allocation.iglBuffer = some g →
      ¬(b.isSuballocated = true ∧ b.currentAllocation ≥ 0) →
      bindBufferDesc backend buffers gbp gin b =
        [.uploadBuffer g (b.allocation.ptrBytes.take b.allocation.size)
          b.allocation.size 0,
         .bindBuffer b.iglBufferDesc.bufferIndex
           (if backend = .Vulkan then kAllGraphics
            else bindTargetForShaderStage b.iglBufferDesc.shaderStage) g 0]) ∧
    (∀ (backend : BackendType) (buffers : List BufferDesc)
        (gbp : String → Nat) (gin : String → ShaderStage → Int)
        (b : BufferDesc) (g : GpuBuffer),
      backend ≠ .OpenGL → b.allocation.iglBuffer = some g →
      b.isSuballocated = true → b.currentAllocation ≥ 0 →
      bindBufferDesc backend buffers gbp gin b =
        [.uploadBuffer g
          ((b.allocation.ptrBytes.drop
              (w64 (b.currentAllocation.toNat * b.suballocationsSize))).take
            b.suballocationsSize)
          b.suballocationsSize (w64 (b.currentAllocation.toNat * b.suballocationsSize)),
         .bindBuffer b.iglBufferDesc.bufferIndex
           (if backend = .Vulkan then kAllGraphics
            else bindTargetForShaderStage b.iglBufferDesc.shaderStage) g
           (w64 (b.currentAllocation.toNat * b.suballocationsSize))]) ∧
    (∀ (buffers : List BufferDesc) (gbp : String → Nat)
        (gin : String → ShaderStage → Int) (b : BufferDesc),
      b.allocation.iglBuffer = none →
      bindBufferDesc .Metal buffers gbp gin b =
        [.bindBytes b.iglBufferDesc.bufferIndex
          (bindTargetForShaderStage b.iglBufferDesc.shaderStage)
          b.allocation.ptrBytes b.iglBufferDesc.bufferDataSize]) := by
  refine ⟨?_, ?_, ?_⟩
  · intro backend buffers gbp gin b g hb hg hnsel
    simp [bindBufferDesc, hb, hg, hnsel]
  · intro backend buffers gbp gin b g hb hg hsub hidx
    simp [bindBufferDesc, hb, hg, hsub, hidx]
  · intro buffers gbp gin b hg
    simp [bindBufferDesc, hg]

/-- C7 witness: the publish theorem applied at concrete groups — a
non-suballocated Metal group with a GPU buffer, a Vulkan group with selected
suballocation index 2 and unit size 4, and a Metal group with no GPU
buffer. -/
theorem C7_bindBuffer_upload_and_bind_ranges_witness :
    bindBufferDesc .Metal [] (fun _ => 0) (fun _ _ => -1)
        { iglBufferDesc := ⟨"blk", .Vertex, 8, true, 3, [⟨"u", .Float2, 0, 1⟩]⟩
          allocation := ⟨[1, 2, 3, 4, 5, 6, 7, 8], 8, some ⟨0, 8⟩⟩
          uniforms := [] } =
      [.uploadBuffer ⟨0, 8⟩ [1, 2, 3, 4, 5, 6, 7, 8] 8 0,
       .bindBuffer 3 kVertex ⟨0, 8⟩ 0] ∧
    bindBufferDesc .Vulkan [] (fun _ => 0) (fun _ _ => -1)
        { iglBufferDesc := ⟨"blk", .Vertex, 4, true, 1, [⟨"u", .Float1, 0, 1⟩]⟩
          allocation := ⟨[1, 2, 3, 4, 5, 6, 7, 8, 9, 10, 11, 12], 12, some ⟨0, 12⟩⟩
          uniforms := []
          isSuballocated := true
          suballocationsSize := 4
          currentAllocation := 2
          suballocations := [0, 2] } =
      [.uploadBuffer ⟨0, 12⟩ [9, 10, 11, 12] 4 8,
       .bindBuffer 1 kAllGraphics ⟨0, 12⟩ 8] ∧
    bindBufferDesc .Metal [] (fun _ => 0) (fun _ _ => -1)
        { iglBufferDesc := ⟨"blk", .Fragment, 8, true, 2, [⟨"u", .Float2, 0, 1⟩]⟩
          allocation := ⟨[1, 2, 3, 4, 5, 6, 7, 8], 8, none⟩
          uniforms := [] } =
      [.bindBytes 2 kFragment [1, 2, 3, 4, 5, 6, 7, 8] 8] := by
  refine ⟨?_, ?_, ?_⟩
  · have h := C7_bindBuffer_upload_and_bind_ranges.1 .Metal [] (fun _ => 0) (fun _ _ => -1)
      { iglBufferDesc := ⟨"blk", .Vertex, 8, true, 3, [⟨"u", .Float2, 0, 1⟩]⟩
        allocation := ⟨[1, 2, 3, 4, 5, 6, 7, 8], 8, some ⟨0, 8⟩⟩
        uniforms := [] } ⟨0, 8⟩ (by decide) rfl (by decide)
    rw [h]; decide
  · have h := C7_bindBuffer_upload_and_bind_ranges.2.1 .Vulkan [] (fun _ => 0)
      (fun _ _ => -1)
      { iglBufferDesc := ⟨"blk", .Vertex, 4, true, 1, [⟨"u", .Float1, 0, 1⟩]⟩
        allocation := ⟨[1, 2, 3, 4, 5, 6, 7, 8, 9, 10, 11, 12], 12, some ⟨0, 12⟩⟩
        uniforms := []
        isSuballocated := true
        suballocationsSize := 4
        currentAllocation := 2
        suballocations := [0, 2] } ⟨0, 12⟩ (by decide) rfl rfl (by decide)
    rw [h]; decide
  · exact C7_bindBuffer_upload_and_bind_ranges.2.2 [] (fun _ => 0) (fun _ _ => -1)
      { iglBufferDesc := ⟨"blk", .Fragment, 8, true, 2, [⟨"u", .Float2, 0, 1⟩]⟩
        allocation := ⟨[1, 2, 3, 4, 5, 6, 7, 8], 8, none⟩
        uniforms := [] } rfl

/-- C8 counterexample: the claim says a loose OpenGL uniform is bound to the
pipeline's resolved location for that uniform's name and shader stage.  For
a vertex-stage loose uniform whose pipeline resolves location 3 for
(name, Vertex) but no location for (name, Fragment), the code binds nothing:
`bindUniformOpenGL` passes the literal fragment stage to `getIndexByName`,
gets -1, and skips, although the uniform's own stage resolves. -/
theorem C8_loose_uniform_bound_with_fragment_stage_lookup :
    bindAll
        (shaderUniformsInit ⟨.OpenGL, true, true, 4096, 0⟩
          [⟨"u", .Vertex, 16, false, 0, [⟨"u", .Float4, 0, 1⟩]⟩])
        (fun _ => 0)
        (fun n s => if n = "u" ∧ s = ShaderStage.Vertex then 3 else -1) = [] ∧
    (fun n s => if n = "u" ∧ s = ShaderStage.Vertex then (3 : Int) else -1) "u"
        ShaderStage.Vertex = 3 := by
  decide

/-- C8 (amended): on OpenGL a buffer group that is not a true block binds the
raw staged value directly to the pipeline's uniform location resolved for the
uniform's name with the fragment stage always passed as the stage argument
(regardless of the uniform's own shader stage), with no GPU buffer involved;
when that fragment-stage lookup resolves no location, the bind is logged and
skipped. -/
theorem C8_loose_uniform_bind_amended
    (buffers : List BufferDesc) (gbp : String → Nat)
    (gin : String → ShaderStage → Int) (buffer : BufferDesc)
    (u : UniformDesc) (bi : Nat) (sb : BufferDesc)
    (hblock : buffer.iglBufferDesc.isUniformBlock = false)
    (hhead : buffer.uniforms.head? = some u)
    (hu : u.buffer = some bi) (hget : buffers[bi]? = some sb) :
    (0 ≤ gin buffer.iglBufferDesc.name ShaderStage.Fragment →
      bindBufferDesc .OpenGL buffers gbp gin buffer =
        [.bindUniform (gin buffer.iglBufferDesc.name ShaderStage.Fragment)
          u.iglMemberDesc.type u.iglMemberDesc.offset u.iglMemberDesc.arrayLength
          (sizeForUniformType u.iglMemberDesc.type) sb.allocation.ptrBytes]) ∧
    (gin buffer.iglBufferDesc.name ShaderStage.Fragment < 0 →
      bindBufferDesc .OpenGL buffers gbp gin buffer = []) := by
  constructor
  · intro hloc
    simp [bindBufferDesc, bindUniformOpenGL, hblock, hhead, hu, hget, hloc]
  · intro hloc
    have hnot : ¬gin buffer.iglBufferDesc.name ShaderStage.Fragment ≥ 0 := by omega
    simp [bindBufferDesc, bindUniformOpenGL, hblock, hhead, hu, hget, hnot]

/-- C8 witness: the amended theorem applied to a concrete loose vertex-stage
uniform — when the fragment-stage lookup resolves location 7 the staged value
is bound there, and when it resolves nothing the bind is skipped. -/
theorem C8_loose_uniform_bind_amended_witness :
    bindBufferDesc .OpenGL
        [{ iglBufferDesc := ⟨"u", .Vertex, 16, false, 0, [⟨"u", .Float4, 0, 1⟩]⟩
           allocation := ⟨List.replicate 16 3, 16, none⟩
           uniforms := [⟨⟨"u", .Float4, 0, 1⟩, some 0⟩] }]
        (fun _ => 0) (fun _ _ => 7)
        { iglBufferDesc := ⟨"u", .Vertex, 16, false, 0, [⟨"u", .Float4, 0, 1⟩]⟩
          allocation := ⟨List.replicate 16 3, 16, none⟩
          uniforms := [⟨⟨"u", .Float4, 0, 1⟩, some 0⟩] } =
      [.bindUniform 7 .Float4 0 1 16 (List.replicate 16 3)] ∧
    bindBufferDesc .OpenGL
        [{ iglBufferDesc := ⟨"u", .Vertex, 16, false, 0, [⟨"u", .Float4, 0, 1⟩]⟩
           allocation := ⟨List.replicate 16 3, 16, none⟩
           uniforms := [⟨⟨"u", .Float4, 0, 1⟩, some 0⟩] }]
        (fun _ => 0) (fun _ _ => -1)
        { iglBufferDesc := ⟨"u", .Vertex, 16, false, 0, [⟨"u", .Float4, 0, 1⟩]⟩
          allocation := ⟨List.replicate 16 3, 16, none⟩
          uniforms := [⟨⟨"u", .Float4, 0, 1⟩, some 0⟩] } = [] := by
  constructor
  · have h := (C8_loose_uniform_bind_amended
      [{ iglBufferDesc := ⟨"u", .Vertex, 16, false, 0, [⟨"u", .Float4, 0, 1⟩]⟩
         allocation := ⟨List.replicate 16 3, 16, none⟩
         uniforms := [⟨⟨"u", .Float4, 0, 1⟩, some 0⟩] }]
      (fun _ => 0) (fun _ _ => 7)
      { iglBufferDesc := ⟨"u", .Vertex, 16, false, 0, [⟨"u", .Float4, 0, 1⟩]⟩
        allocation := ⟨List.replicate 16 3, 16, none⟩
        uniforms := [⟨⟨"u", .Float4, 0, 1⟩, some 0⟩] }
      ⟨⟨"u", .Float4, 0, 1⟩, some 0⟩ 0
      { iglBufferDesc := ⟨"u", .Vertex, 16, false, 0, [⟨"u", .Float4, 0, 1⟩]⟩
        allocation := ⟨List.replicate 16 3, 16, none⟩
        uniforms := [⟨⟨"u", .Float4, 0, 1⟩, some 0⟩] }
      rfl rfl rfl (by decide)).1 (by decide)
    rw [h]
    rfl
  · exact (C8_loose_uniform_bind_amended
      [{ iglBufferDesc := ⟨"u", .Vertex, 16, false, 0, [⟨"u", .Float4, 0, 1⟩]⟩
         allocation := ⟨List.replicate 16 3, 16, none⟩
         uniforms := [⟨⟨"u", .Float4, 0, 1⟩, some 0⟩] }]
      (fun _ => 0) (fun _ _ => -1)
      { iglBufferDesc := ⟨"u", .Vertex, 16, false, 0, [⟨"u", .Float4, 0, 1⟩]⟩
        allocation := ⟨List.replicate 16 3, 16, none⟩
        uniforms := [⟨⟨"u", .Float4, 0, 1⟩, some 0⟩] }
      ⟨⟨"u", .Float4, 0, 1⟩, some 0⟩ 0
      { iglBufferDesc := ⟨"u", .Vertex, 16, false, 0, [⟨"u", .Float4, 0, 1⟩]⟩
        allocation := ⟨List.replicate 16 3, 16, none⟩
        uniforms := [⟨⟨"u", .Float4, 0, 1⟩, some 0⟩] }
      rfl rfl rfl (by decide)).2 (by decide)

/-- C9: constructor sizing.  Every entry built on Vulkan is marked
suballocated, its staging allocation (and the GPU buffer created for it) has
size `min(65536, limit)` — 65536 when the device limit is 0, i.e.
unlimited — regardless of the requested size, and the requested size is
recorded as the suballocation unit size; on the other backends the
allocation size is `min(requestedSize, limit)`, or the requested size itself
when the limit is 0. -/
theorem C9_construction_allocation_sizing
    (caps : DeviceCaps) (bufId : Nat) (d : BufferArgDesc) (b : BufferDesc)
    (hw : processBufferArg caps bufId d = some b) :
    (caps.backend = .Vulkan →
      b.isSuballocated = true ∧
      b.suballocationsSize = d.bufferDataSize ∧
      b.allocation.size =
        (if caps.uniformBufferLimit = 0 then 65536
         else min 65536 caps.uniformBufferLimit) ∧
      b.allocation.iglBuffer = some ⟨bufId, b.allocation.size⟩) ∧
    (caps.backend ≠ .Vulkan → d.bufferDataSize ≤ SIZE_MAX →
      b.isSuballocated = false ∧
      b.allocation.size =
        (if caps.uniformBufferLimit = 0 then d.bufferDataSize
         else min d.bufferDataSize caps.uniformBufferLimit)) := by
  have hmax : (65536 : Nat) ≤ SIZE_MAX := by unfold SIZE_MAX U64; omega
  obtain ⟨cb, cf, ck, cbl, cul⟩ := caps
  constructor
  · intro hv
    simp only at hv
    subst hv
    by_cases hl : cul = 0
    · subst hl
      simp only [processBufferArg] at hw
      simp at hw
      obtain rfl := hw.symm
      refine ⟨by simp, by simp, ?_, by simp⟩
      simp [MAX_SUBALLOCATED_BUFFER_SIZE_BYTES, Nat.min_eq_left hmax]
    · simp only [processBufferArg] at hw
      simp [hl] at hw
      obtain rfl := hw.symm
      exact ⟨by simp, by simp, by simp [hl, MAX_SUBALLOCATED_BUFFER_SIZE_BYTES], by simp⟩
  · intro hv hd
    simp only at hv
    simp only [processBufferArg] at hw
    by_cases hskip : cb = .Metal ∧ d.name.take 13 = "vertexBuffer."
    · rw [if_pos (by simpa using hskip)] at hw
      exact absurd hw (by simp)
    · rw [if_neg (by simpa using hskip)] at hw
      rw [if_neg (by simpa using hv)] at hw
      obtain rfl := (Option.some.inj hw).symm
      by_cases hl : cul = 0
      · subst hl
        refine ⟨by simp [hv], ?_⟩
        simp [hv, Nat.min_eq_left hd]
      · exact ⟨by simp [hv], by simp [hv, hl]⟩

/-- C9 witness: the sizing theorem applied to a Vulkan device with uniform
buffer limit 0 and a 16-byte reflected buffer, and to an OpenGL device with
limit 1024 and a 4096-byte reflected buffer. -/
theorem C9_construction_allocation_sizing_witness :
    ((processBufferArg ⟨.Vulkan, true, true, 4096, 0⟩ 0
        ⟨"blk", .Vertex, 16, true, 0, []⟩).map
      (fun b => (b.isSuballocated, b.suballocationsSize, b.allocation.size,
        b.allocation.iglBuffer))) = some (true, 16, 65536, some ⟨0, 65536⟩) ∧
    ((processBufferArg ⟨.OpenGL, true, true, 4096, 1024⟩ 0
        ⟨"blk", .Vertex, 4096, true, 0, []⟩).map
      (fun b => (b.isSuballocated, b.allocation.size))) = some (false, 1024) := by
  constructor
  · have h := C9_construction_allocation_sizing ⟨.Vulkan, true, true, 4096, 0⟩ 0
      ⟨"blk", .Vertex, 16, true, 0, []⟩
      { iglBufferDesc := ⟨"blk", .Vertex, 16, true, 0, []⟩
        allocation := ⟨mallocBytes 65536, 65536, some ⟨0, 65536⟩⟩
        isSuballocated := true
        suballocationsSize := 16 } (by rfl)
    obtain ⟨h1, h2, h3, h4⟩ := h.1 rfl
    rw [show processBufferArg ⟨.Vulkan, true, true, 4096, 0⟩ 0
        ⟨"blk", .Vertex, 16, true, 0, []⟩ =
      some { iglBufferDesc := ⟨"blk", .Vertex, 16, true, 0, []⟩
             allocation := ⟨mallocBytes 65536, 65536, some ⟨0, 65536⟩⟩
             isSuballocated := true
             suballocationsSize := 16 } from rfl]
    simp [h1, h2, h3, h4]
  · have h := C9_construction_allocation_sizing ⟨.OpenGL, true, true, 4096, 1024⟩ 0
      ⟨"blk", .Vertex, 4096, true, 0, []⟩
      { iglBufferDesc := ⟨"blk", .Vertex, 4096, true, 0, []⟩
        allocation := ⟨mallocBytes 1024, 1024, some ⟨0, 1024⟩⟩ } (by rfl)
    obtain ⟨h1, h2⟩ := h.2 (by decide) (by decide)
    rw [show processBufferArg ⟨.OpenGL, true, true, 4096, 1024⟩ 0
        ⟨"blk", .Vertex, 4096, true, 0, []⟩ =
      some { iglBufferDesc := ⟨"blk", .Vertex, 4096, true, 0, []⟩
             allocation := ⟨mallocBytes 1024, 1024, some ⟨0, 1024⟩⟩ } from rfl]
    simp [h1, h2]

/-- C10: `setBytes` dereferences a null GPU buffer handle for entries built
without one.  For a registry constructed from a single reflected buffer that
gets no GPU buffer object — a non-block entry on OpenGL, or a Metal entry
small enough for bind-bytes — a `setBytes` call on that name and stage
reaches `allocation->iglBuffer->upload` with a null handle instead of
performing a logged no-op. -/
theorem C10_setBytes_derefs_null_gpu_buffer
    (caps : DeviceCaps) (d : BufferArgDesc) (data : List Nat) (size : Nat)
    (hcase : (caps.backend = .OpenGL ∧ d.isUniformBlock = false) ∨
      (caps.backend = .Metal ∧ caps.hasBindBytesFeature = true ∧
        caps.bindBytesLimitKnown = true ∧ d.bufferDataSize ≤ caps.bindBytesLimit ∧
        d.name.take 13 ≠ "vertexBuffer.")) :
    setBytes (shaderUniformsInit caps [d]) d.name d.shaderStage data size =
      .nullDeref := by
  obtain ⟨cb, cf, ck, cbl, cul⟩ := caps
  rcases hcase with ⟨hv, hblock⟩ | ⟨hv, hf, hk, hsize, hname⟩
  · simp only at hv hblock
    subst hv
    simp [shaderUniformsInit, processBufferArg, registerBufferDesc, setBytes, hblock]
  · simp only at hv hf hk hsize hname
    subst hv
    subst hf
    subst hk
    have hnogt : ¬d.bufferDataSize > cbl := by omega
    simp [shaderUniformsInit, processBufferArg, registerBufferDesc, setBytes, hname,
      hnogt]

/-- C10 witness: the null-dereference theorem applied to an OpenGL registry
with a single loose (non-block) uniform entry and to a Metal registry whose
buffer fits under the 4096-byte bind-bytes limit. -/
theorem C10_setBytes_derefs_null_gpu_buffer_witness :
    setBytes
        (shaderUniformsInit ⟨.OpenGL, true, true, 4096, 0⟩
          [⟨"u", .Fragment, 16, false, 0, [⟨"u", .Float4, 0, 1⟩]⟩])
        "u" .Fragment [1, 2] 2 = .nullDeref ∧
    setBytes
        (shaderUniformsInit ⟨.Metal, true, true, 4096, 0⟩
          [⟨"blk", .Vertex, 32, true, 0, [⟨"m", .Float4, 0, 1⟩]⟩])
        "blk" .Vertex [1, 2] 2 = .nullDeref := by
  constructor
  · exact C10_setBytes_derefs_null_gpu_buffer ⟨.OpenGL, true, true, 4096, 0⟩
      ⟨"u", .Fragment, 16, false, 0, [⟨"u", .Float4, 0, 1⟩]⟩ [1, 2] 2
      (Or.inl ⟨rfl, rfl⟩)
  · exact C10_setBytes_derefs_null_gpu_buffer ⟨.Metal, true, true, 4096, 0⟩
      ⟨"blk", .Vertex, 32, true, 0, [⟨"m", .Float4, 0, 1⟩]⟩ [1, 2] 2
      (Or.inr ⟨rfl, rfl, rfl, by decide, by decide⟩)

/-- Helper: the effect of `setUniformBytes` when exactly one slot matches the
name and every check passes — the staging bytes of the resolved buffer group
receive the copy at the computed offset and one copy event is reported. -/
theorem setUniformBytes_single_write
    (bk : BackendType) (bufs : List BufferDesc) (un : List (String × UniformDesc))
    (bn : List ((String × ShaderStage) × Nat)) (name : String) (data : List Nat)
    (es c ai : Nat) (u : UniformDesc) (bi : Nat) (b : BufferDesc)
    (off n so sz : Nat)
    (hm : (un.filter (fun p => p.1 = name)).map Prod.snd = [u])
    (hsz : bk = .Vulkan ∨ es = getUniformExpectedSize u.iglMemberDesc.type bk)
    (hrange : ¬w64 (ai + c) > u.iglMemberDesc.arrayLength)
    (hu : u.buffer = some bi) (hget : bufs.get? bi = some b)
    (hso : (if b.isSuballocated ∧ b.currentAllocation ≥ 0 then
        w64 (b.currentAllocation.toNat * b.suballocationsSize) else 0) = so)
    (hoff : off = w64 (u.iglMemberDesc.offset + w64 (es * ai) + so))
    (hsizeEq : b.allocation.size = sz)
    (hn : n = w64 (es * c))
    (hfit : n ≤ w64 (sz + U64 - off)) :
    setUniformBytes ⟨bk, bufs, un, bn⟩ name data es c ai =
      (⟨bk, bufs.set bi
          { b with allocation :=
            { b.allocation with
              ptrBytes := memWrite b.allocation.ptrBytes off (data.take n) } },
        un, bn⟩, [⟨bi, off, n⟩]) := by
  subst hso
  subst hoff
  subst hsizeEq
  subst hn
  have hne : ¬(bk ≠ .Vulkan ∧
      es ≠ getUniformExpectedSize u.iglMemberDesc.type bk) := by
    rcases hsz with h | h <;> simp [h]
  simp only [setUniformBytes, hm]
  simp only [List.isEmpty_cons, if_false, Bool.false_eq_true, ite_false]
  simp only [setUniformBytesList, setUniformBytesSlot, if_neg hne, if_neg hrange, hu,
    hget]
  rw [if_pos hfit]
  simp

/-- C2: round trip through a registry built from a reflection with one block
of two float4 members at byte offsets 0 and 16 in a 32-byte buffer (Metal
backend, bind-bytes unavailable so a GPU buffer is created).  Writing any two
distinct 16-byte float4 values to the two members and then binding uploads
exactly the 32-byte range consisting of the first value followed by the
second, and binds the buffer at its reflected index. -/
theorem C2_two_float4_write_bind_round_trip
    (v1 v2 : List Nat) (h1 : v1.length = 16) (h2 : v2.length = 16) (hne : v1 ≠ v2)
    (gbp : String → Nat) (gin : String → ShaderStage → Int) :
    bindAll
      ((setUniformBytes
        ((setUniformBytes
          (shaderUniformsInit ⟨.Metal, false, true, 4096, 0⟩
            [⟨"blk", .Vertex, 32, true, 0,
              [⟨"m1", .Float4, 0, 1⟩, ⟨"m2", .Float4, 16, 1⟩]⟩])
          "m1" v1 16 1 0).1)
        "m2" v2 16 1 0).1) gbp gin =
      [.uploadBuffer ⟨0, 32⟩ (v1 ++ v2) 32 0,
       .bindBuffer 0 kVertex ⟨0, 32⟩ 0] := by
  have hst0 : shaderUniformsInit ⟨.Metal, false, true, 4096, 0⟩
      [⟨"blk", .Vertex, 32, true, 0,
        [⟨"m1", .Float4, 0, 1⟩, ⟨"m2", .Float4, 16, 1⟩]⟩] =
      ⟨.Metal,
        [{ iglBufferDesc :=
            ⟨"blk", .Vertex, 32, true, 0, [⟨"m1", .Float4, 0, 1⟩, ⟨"m2", .Float4, 16, 1⟩]⟩
           allocation := ⟨List.replicate 32 0, 32, some ⟨0, 32⟩⟩
           uniforms := [⟨⟨"m1", .Float4, 0, 1⟩, some 0⟩, ⟨⟨"m2", .Float4, 16, 1⟩, some 0⟩] }],
        [("m1", ⟨⟨"m1", .Float4, 0, 1⟩, some 0⟩), ("m2", ⟨⟨"m2", .Float4, 16, 1⟩, some 0⟩)],
        [(("blk", .Vertex), 0)]⟩ := rfl
  rw [hst0]
  rw [setUniformBytes_single_write .Metal
    [{ iglBufferDesc :=
        ⟨"blk", .Vertex, 32, true, 0, [⟨"m1", .Float4, 0, 1⟩, ⟨"m2", .Float4, 16, 1⟩]⟩
       allocation := ⟨List.replicate 32 0, 32, some ⟨0, 32⟩⟩
       uniforms := [⟨⟨"m1", .Float4, 0, 1⟩, some 0⟩, ⟨⟨"m2", .Float4, 16, 1⟩, some 0⟩] }]
    [("m1", ⟨⟨"m1", .Float4, 0, 1⟩, some 0⟩), ("m2", ⟨⟨"m2", .Float4, 16, 1⟩, some 0⟩)]
    [(("blk", .Vertex), 0)] "m1" v1 16 1 0
    ⟨⟨"m1", .Float4, 0, 1⟩, some 0⟩ 0
    { iglBufferDesc :=
        ⟨"blk", .Vertex, 32, true, 0, [⟨"m1", .Float4, 0, 1⟩, ⟨"m2", .Float4, 16, 1⟩]⟩
      allocation := ⟨List.replicate 32 0, 32, some ⟨0, 32⟩⟩
      uniforms := [⟨⟨"m1", .Float4, 0, 1⟩, some 0⟩, ⟨⟨"m2", .Float4, 16, 1⟩, some 0⟩] }
    0 16 0 32 (by decide) (Or.inr (by decide)) (by decide) rfl rfl rfl (by decide)
    rfl (by decide) (by decide)]
  dsimp only [List.set]
  have hmem1 : memWrite (List.replicate 32 0) 0 (v1.take 16) =
      v1 ++ List.replicate 16 0 := by
    rw [List.take_all_of_le (by omega)]
    rw [memWrite_zero_full v1 (List.replicate 32 0) (by simp [h1])]
    rw [h1]
    rw [show (List.replicate 32 0).drop 16 = List.replicate 16 0 from by decide]
  rw [hmem1]
  rw [setUniformBytes_single_write .Metal
    [{ iglBufferDesc :=
        ⟨"blk", .Vertex, 32, true, 0, [⟨"m1", .Float4, 0, 1⟩, ⟨"m2", .Float4, 16, 1⟩]⟩
       allocation := ⟨v1 ++ List.replicate 16 0, 32, some ⟨0, 32⟩⟩
       uniforms := [⟨⟨"m1", .Float4, 0, 1⟩, some 0⟩, ⟨⟨"m2", .Float4, 16, 1⟩, some 0⟩] }]
    [("m1", ⟨⟨"m1", .Float4, 0, 1⟩, some 0⟩), ("m2", ⟨⟨"m2", .Float4, 16, 1⟩, some 0⟩)]
    [(("blk", .Vertex), 0)] "m2" v2 16 1 0
    ⟨⟨"m2", .Float4, 16, 1⟩, some 0⟩ 0
    { iglBufferDesc :=
        ⟨"blk", .Vertex, 32, true, 0, [⟨"m1", .Float4, 0, 1⟩, ⟨"m2", .Float4, 16, 1⟩]⟩
      allocation := ⟨v1 ++ List.replicate 16 0, 32, some ⟨0, 32⟩⟩
      uniforms := [⟨⟨"m1", .Float4, 0, 1⟩, some 0⟩, ⟨⟨"m2", .Float4, 16, 1⟩, some 0⟩] }
    16 16 0 32 (by decide) (Or.inr (by decide)) (by decide) rfl rfl rfl (by decide)
    rfl (by decide) (by decide)]
  have hmem2 : memWrite (v1 ++ List.replicate 16 0) 16 (v2.take 16) = v1 ++ v2 := by
    rw [List.take_all_of_le (by omega)]
    nth_rewrite 2 [show (16 : Nat) = v1.length + 0 from by omega]
    rw [memWrite_append v1 (List.replicate 16 0) v2 0]
    rw [memWrite_zero_full v2 (List.replicate 16 0) (by simp [h2])]
    rw [h2]
    rw [show (List.replicate 16 0).drop 16 = ([] : List Nat) from by decide]
    rw [List.append_nil]
  dsimp only [List.set]
  rw [hmem2]
  have htake : (v1 ++ v2).take 32 = v1 ++ v2 :=
    List.take_all_of_le (by simp [h1, h2])
  simp [bindAll, bindBufferDesc, bindTargetForShaderStage, htake]

/-- C2 witness: the round-trip theorem applied to two concrete distinct
16-byte values. -/
theorem C2_two_float4_write_bind_round_trip_witness :
    bindAll
      ((setUniformBytes
        ((setUniformBytes
          (shaderUniformsInit ⟨.Metal, false, true, 4096, 0⟩
            [⟨"blk", .Vertex, 32, true, 0,
              [⟨"m1", .Float4, 0, 1⟩, ⟨"m2", .Float4, 16, 1⟩]⟩])
          "m1" [1, 2, 3, 4, 5, 6, 7, 8, 9, 10, 11, 12, 13, 14, 15, 16] 16 1 0).1)
        "m2" [21, 22, 23, 24, 25, 26, 27, 28, 29, 30, 31, 32, 33, 34, 35, 36] 16 1 0).1)
      (fun _ => 0) (fun _ _ => -1) =
      [.uploadBuffer ⟨0, 32⟩
        ([1, 2, 3, 4, 5, 6, 7, 8, 9, 10, 11, 12, 13, 14, 15, 16] ++
          [21, 22, 23, 24, 25, 26, 27, 28, 29, 30, 31, 32, 33, 34, 35, 36]) 32 0,
       .bindBuffer 0 kVertex ⟨0, 32⟩ 0] :=
  C2_two_float4_write_bind_round_trip
    [1, 2, 3, 4, 5, 6, 7, 8, 9, 10, 11, 12, 13, 14, 15, 16]
    [21, 22, 23, 24, 25, 26, 27, 28, 29, 30, 31, 32, 33, 34, 35, 36]
    (by decide) (by decide) (by decide) (fun _ => 0) (fun _ _ => -1)

end IGLU
